import Mathlib

/-!
Verification development for the rule-based (deterministic) pipeline of the
meta-agent CX generator: a shallow embedding of the Python modules
`meta_agent/orchestrator.py`, `meta_agent/agent_creator.py`,
`meta_agent/function_creator.py` and `meta_agent/models.py`, together with
theorems settling the specification claims about them.

Python strings are embedded as Lean `String`; Python `in` on strings is the
boolean substring test `substrB`; Python dicts whose keys are fixed by the
rule tables are embedded as structures; the `uuid4`/`utcnow` default
factories of the pydantic models are embedded as an explicit identifier
environment (`Env`) threaded into the config merge.
-/

namespace MetaAgent

/-! ### Python string primitives -/

/-- Boolean infix (substring) test on character lists (Python `needle in hay`). -/
def infixB (n : List Char) : List Char → Bool
  | [] => n.isEmpty
  | c :: t => n.isPrefixOf (c :: t) || infixB n t

/-- Python `needle in hay` for strings. -/
def substrB (needle hay : String) : Bool := infixB needle.data hay.data

/-- ASCII lower-casing of one character (Python `str.lower` on the ASCII
    inputs this pipeline handles). -/
def lowerChar (c : Char) : Char :=
  if 'A' ≤ c ∧ c ≤ 'Z' then Char.ofNat (c.toNat + 32) else c

/-- ASCII upper-casing of one character. -/
def upperChar (c : Char) : Char :=
  if 'a' ≤ c ∧ c ≤ 'z' then Char.ofNat (c.toNat - 32) else c

/-- Python `str.lower` (ASCII). -/
def lowerStr (s : String) : String := ⟨s.data.map lowerChar⟩

def isAsciiAlpha (c : Char) : Bool :=
  ('a' ≤ c && c ≤ 'z') || ('A' ≤ c && c ≤ 'Z')

def titleGo : Bool → List Char → List Char
  | _, [] => []
  | prevAlpha, c :: t =>
      (if isAsciiAlpha c then (if prevAlpha then lowerChar c else upperChar c) else c)
        :: titleGo (isAsciiAlpha c) t

/-- Python `str.title` (ASCII): upper-case each letter that follows a
    non-letter, lower-case the other letters. -/
def titleStr (s : String) : String := ⟨titleGo false s.data⟩

/-- Python `s.replace(a, b)` for one-character `a`, `b`. -/
def replaceChar (a b : Char) (s : String) : String :=
  ⟨s.data.map (fun c => if c = a then b else c)⟩

/-- `task["task_name"].lower().replace(" ", "_")` and
    `slot.lower().replace(" ", "_")` as used throughout the source. -/
def pyId (s : String) : String := replaceChar ' ' '_' (lowerStr s)

/-- `slot.replace("_", " ")` (human-readable form of a slot name). -/
def underscoresToSpaces (s : String) : String := replaceChar '_' ' ' s

/-- Python `name.split("_")` (empty parts kept, `""` splits to `[""]`). -/
def splitUnderscore : List Char → List (List Char)
  | [] => [[]]
  | c :: t =>
      match splitUnderscore t with
      | [] => [[]]
      | h :: r => if c = '_' then [] :: h :: r else (c :: h) :: r

/-- Python `"/".join(parts)`. -/
def joinSlash : List (List Char) → List Char
  | [] => []
  | [p] => p
  | p :: q :: r => p ++ '/' :: joinSlash (q :: r)

/-- The pattern of the one `str.replace` call of the wiring code:
    `nid.replace("node_decision_", "")`. -/
def ndPat : List Char := "node_decision_".data

/-- The scan of `s.replace("node_decision_", "")`, structurally recursive
    on a fuel that bounds the string length (each step consumes at least
    one character, so the fuel never runs out on the initial call). -/
def stripNDGo : Nat → List Char → List Char
  | 0, s => s
  | _ + 1, [] => []
  | fuel + 1, c :: t =>
      if ndPat.isPrefixOf (c :: t) then stripNDGo fuel ((c :: t).drop ndPat.length)
      else c :: stripNDGo fuel t

/-- Python `s.replace("node_decision_", "")`: remove every (left-to-right,
    non-overlapping) occurrence of the pattern. -/
def stripND (s : List Char) : List Char := stripNDGo s.length s

/-- Python dict insertion `d[k] = v`: update in place if the key exists,
    else append (insertion order preserved). -/
def dictInsert {α : Type} (k : String) (v : α) :
    List (String × α) → List (String × α)
  | [] => [(k, v)]
  | (k0, v0) :: r => if k0 = k then (k0, v) :: r else (k0, v0) :: dictInsert k v r

/-! ### Orchestrator data model (`orchestrator.py`)

A task dict of `_detect_tasks` / `_domain_default_tasks`; all five keys are
always present on the rule-produced dicts. (The greeting entry additionally
keeps its `keywords` key because only the non-greeting patterns `pop` it;
no downstream code reads it, so it is not modelled.) -/

structure TaskD where
  task_name : String
  description : String
  data_to_collect : List String
  requires_api : Bool
  api_description : String
deriving DecidableEq, Repr

/-- An entry of a `functions_needed` list (`_detect_functions` output):
    `input_params` element. -/
structure FnParamD where
  name : String
  type : String
  description : String
deriving DecidableEq, Repr

/-- An entry of `functions_needed` (`_detect_functions` output). -/
structure FnReqD where
  name : String
  purpose : String
  input_params : List FnParamD
  expected_output : String
deriving DecidableEq, Repr

/-- `_detect_domain`'s `domain_keywords` table, in dict (insertion) order. -/
def domainKeywords : List (String × List String) :=
  [("healthcare", ["appointment", "doctor", "clinic", "hospital", "patient", "medical", "health", "therapy"]),
   ("e-commerce", ["order", "product", "shipping", "cart", "purchase", "delivery", "shop", "store", "buy"]),
   ("finance", ["account", "balance", "transaction", "payment", "loan", "bank", "card", "credit"]),
   ("travel", ["flight", "hotel", "booking", "reservation", "travel", "trip", "airline"]),
   ("telecommunications", ["plan", "data", "mobile", "phone bill", "sim", "network", "roaming"]),
   ("food_delivery", ["food", "restaurant", "delivery", "menu", "order food", "meal"]),
   ("insurance", ["claim", "policy", "insurance", "coverage", "premium"]),
   ("education", ["course", "class", "enrollment", "student", "tutor", "training"]),
   ("real_estate", ["property", "rent", "lease", "apartment", "house", "real estate"]),
   ("automotive", ["car", "vehicle", "service", "repair", "maintenance", "dealership"])]

/-- `MetaOrchestrator._detect_domain`. -/
def detectDomain (text : String) : String :=
  match domainKeywords.find? (fun p => p.2.any (fun kw => substrB kw text)) with
  | some p => p.1
  | none => "general_support"

/-- `_extract_user_slots`'s `slot_keywords` table, in dict order. -/
def slotKeywords : List (String × List String) :=
  [("customer_name", ["name", "first name", "last name", "full name", "caller name", "user name"]),
   ("email", ["email", "e-mail", "email address", "mail"]),
   ("phone_number", ["phone", "phone number", "mobile", "contact number", "cell"]),
   ("preferred_date", ["date", "day", "when", "preferred date", "appointment date"]),
   ("preferred_time", ["time", "preferred time", "appointment time", "what time"]),
   ("address", ["address", "location", "where"]),
   ("service_type", ["service", "service type", "type of service"]),
   ("reason", ["reason", "purpose", "why"]),
   ("order_number", ["order number", "order id", "order #"]),
   ("account_number", ["account number", "account id", "account #"]),
   ("issue_description", ["issue", "problem", "complaint", "describe"]),
   ("age", ["age", "how old"]),
   ("dob", ["date of birth", "dob", "birthday"]),
   ("insurance_id", ["insurance", "insurance id", "policy number"]),
   ("company_name", ["company", "organization", "business name"])]

/-- `MetaOrchestrator._extract_user_slots`: the loop appends the canonical
    slot name on the first matching keyword, skipping names already found. -/
def extractUserSlots (text : String) : List String :=
  slotKeywords.foldl
    (fun found p =>
      if p.2.any (fun kw => substrB kw text) then
        (if found.contains p.1 then found else found ++ [p.1])
      else found)
    []

/-- The always-present greeting task of `_detect_tasks`. -/
def greetTask : TaskD :=
  { task_name := "Greeting"
    description := "Greet the caller and introduce the service"
    data_to_collect := []
    requires_api := false
    api_description := "" }

/-- The non-greeting entries of `_detect_tasks`'s `task_patterns`, in dict
    order: the keyword list paired with the task template (minus the
    popped `keywords` key). -/
def taskPatterns : List (List String × TaskD) :=
  [(["take name", "ask name", "collect name", "get name", "ask for name"],
    { task_name := "Collect Customer Name"
      description := "Collect the caller's name for personalization"
      data_to_collect := ["customer_name"]
      requires_api := false
      api_description := "" }),
   (["email", "e-mail", "mail address"],
    { task_name := "Collect Email"
      description := "Collect the caller's email address"
      data_to_collect := ["email"]
      requires_api := false
      api_description := "" }),
   (["phone number", "mobile number", "contact number"],
    { task_name := "Collect Phone Number"
      description := "Collect the caller's phone number"
      data_to_collect := ["phone_number"]
      requires_api := false
      api_description := "" }),
   (["appointment", "schedule", "book", "booking", "slot"],
    { task_name := "Appointment Booking"
      description := "Book an appointment for the customer"
      data_to_collect := ["customer_name", "preferred_date", "preferred_time"]
      requires_api := true
      api_description := "Check available appointment slots and book an appointment" }),
   (["order status", "track order", "where is my order", "order tracking"],
    { task_name := "Order Status Check"
      description := "Check the status of a customer's order"
      data_to_collect := ["order_number"]
      requires_api := true
      api_description := "Look up order status by order number" }),
   (["account", "balance", "statement"],
    { task_name := "Account Inquiry"
      description := "Look up customer account information"
      data_to_collect := ["account_number"]
      requires_api := true
      api_description := "Retrieve account details and balance" }),
   (["complaint", "issue", "problem", "wrong"],
    { task_name := "File Complaint"
      description := "Record and process a customer complaint"
      data_to_collect := ["customer_name", "issue_description"]
      requires_api := true
      api_description := "Submit a customer complaint ticket" }),
   (["cancel", "cancellation", "refund"],
    { task_name := "Cancellation Processing"
      description := "Process a cancellation or refund request"
      data_to_collect := ["order_number", "cancellation_reason"]
      requires_api := true
      api_description := "Process cancellation and initiate refund" }),
   (["confirm", "verify", "availability", "available"],
    { task_name := "Confirm Availability"
      description := "Confirm availability via external system"
      data_to_collect := []
      requires_api := true
      api_description := "Verify availability through the backend API" }),
   (["faq", "question", "information", "info", "help"],
    { task_name := "FAQ & Information"
      description := "Answer frequently asked questions"
      data_to_collect := []
      requires_api := false
      api_description := "" })]

/-- `MetaOrchestrator._domain_default_tasks`. -/
def domainDefaultTasks (domain : String) : List TaskD :=
  if domain == "healthcare" then
    [{ task_name := "Appointment Booking"
       description := "Book an appointment for the customer"
       data_to_collect := ["customer_name", "preferred_date", "preferred_time"]
       requires_api := true
       api_description := "Check available appointment slots and book an appointment" }]
  else if domain == "e-commerce" then
    [{ task_name := "Order Status Check"
       description := "Check the status of a customer's order"
       data_to_collect := ["order_number"]
       requires_api := true
       api_description := "Look up order status by order number" }]
  else if domain == "finance" then
    [{ task_name := "Account Inquiry"
       description := "Look up customer account information"
       data_to_collect := ["account_number"]
       requires_api := true
       api_description := "Retrieve account details and balance" }]
  else
    [{ task_name := "General Inquiry"
       description := "Handle general customer inquiries"
       data_to_collect := ["customer_name", "inquiry_details"]
       requires_api := false
       api_description := "" }]

def dedupGo (seen : List String) : List TaskD → List TaskD
  | [] => []
  | t :: ts =>
      if seen.contains t.task_name then dedupGo seen ts
      else t :: dedupGo (t.task_name :: seen) ts

/-- The dedup-by-name pass closing `_detect_tasks` (first occurrence wins). -/
def dedupByName (l : List TaskD) : List TaskD := dedupGo [] l

/-- `MetaOrchestrator._detect_tasks`: greeting always first, then every
    matching pattern in table order, then domain defaults when only the
    greeting matched, then dedup by name. -/
def detectTasks (text : String) (domain : String) : List TaskD :=
  let base := greetTask ::
    (taskPatterns.filter (fun p => p.1.any (fun kw => substrB kw text))).map (·.2)
  let withDefaults := if base.length ≤ 1 then base ++ domainDefaultTasks domain else base
  dedupByName withDefaults

/-- The slot-append loop of `_merge_user_slots_into_tasks`: membership is
    checked against the original slots plus those already appended. -/
def addSlots (ds userSlots : List String) : List String :=
  userSlots.foldl (fun acc s => if acc.contains s then acc else acc ++ [s]) ds

/-- The task `_merge_user_slots_into_tasks` synthesizes when only a greeting
    exists. -/
def cciTask (userSlots : List String) : TaskD :=
  { task_name := "Collect Customer Information"
    description := "Collect customer details for the interaction"
    data_to_collect := userSlots
    requires_api := true
    api_description := "Store or process collected customer information" }

/-- `MetaOrchestrator._merge_user_slots_into_tasks`: the primary task is the
    first API-requiring task, else the first non-greeting task; when none
    exists the synthesized task is appended, otherwise the user slots are
    merged into the primary task's collection list. -/
def mergeUserSlotsIntoTasks (tasks : List TaskD) (userSlots : List String) : List TaskD :=
  let primaryIdx :=
    match tasks.findIdx? (·.requires_api) with
    | some i => some i
    | none => tasks.findIdx? (fun (t : TaskD) => t.task_name != "Greeting")
  match primaryIdx with
  | none => tasks ++ [cciTask userSlots]
  | some i =>
      tasks.enum.map (fun (p : Nat × TaskD) =>
        if p.1 = i then
          { p.2 with data_to_collect := addSlots p.2.data_to_collect userSlots }
        else p.2)

/-- `_task_to_function_name`'s `name_map`. -/
def functionNameMap : List (String × String) :=
  [("appointment_booking", "get_appointment_slots"),
   ("order_status_check", "get_order_status"),
   ("account_inquiry", "get_account_info"),
   ("file_complaint", "submit_complaint"),
   ("cancellation_processing", "process_cancellation"),
   ("confirm_availability", "check_availability"),
   ("general_inquiry", "search_knowledge_base")]

/-- `MetaOrchestrator._task_to_function_name` (argument already lower-cased
    with spaces replaced by underscores): table lookup, else strip the
    characters outside `[a-z0-9_]`, falling back to `perform_action`. -/
def taskToFunctionName (taskId : String) : String :=
  match functionNameMap.lookup taskId with
  | some fn => fn
  | none =>
      let clean : String :=
        ⟨taskId.data.filter (fun c => ('a' ≤ c && c ≤ 'z') || ('0' ≤ c && c ≤ '9') || c == '_')⟩
      if clean.data.isEmpty then "perform_action" else clean

/-- The slot-to-parameter-type rules of `_task_to_function_params`. -/
def paramTypeFor (slot : String) : String :=
  let s := lowerStr slot
  if substrB "date" s then "string"
  else if substrB "number" s || substrB "amount" s then "string"
  else if substrB "count" s || substrB "quantity" s then "integer"
  else "string"

/-- `MetaOrchestrator._task_to_function_params` (the `text` argument is
    unused in the source as well). -/
def taskToFunctionParams (task : TaskD) (_text : String) : List FnParamD :=
  task.data_to_collect.map (fun slot =>
    { name := slot
      type := paramTypeFor slot
      description := "The customer's " ++ underscoresToSpaces slot })

/-- `_infer_output`'s `output_map`. -/
def outputMap : List (String × String) :=
  [("get_appointment_slots", "List of available appointment slots with dates and times"),
   ("book_appointment", "Booking confirmation with confirmation code"),
   ("get_order_status", "Order status including tracking info and estimated delivery"),
   ("get_account_info", "Account details including balance and recent activity"),
   ("submit_complaint", "Complaint ticket ID and status"),
   ("process_cancellation", "Cancellation confirmation and refund details"),
   ("check_availability", "Availability status with available options"),
   ("search_knowledge_base", "Relevant FAQ entries or knowledge base articles")]

/-- `MetaOrchestrator._infer_output`. -/
def inferOutput (fnName : String) : String :=
  (outputMap.lookup fnName).getD "JSON response with operation result"

/-- One `functions_needed` entry of `_detect_functions` (`purpose` reads the
    `api_description` key, which is present — possibly empty — on every
    rule-produced task dict). -/
def mkFnReq (task : TaskD) (text : String) : FnReqD :=
  let tid := pyId task.task_name
  { name := taskToFunctionName tid
    purpose := task.api_description
    input_params := taskToFunctionParams task text
    expected_output := inferOutput (taskToFunctionName tid) }

/-- `MetaOrchestrator._detect_functions`. -/
def detectFunctions (tasks : List TaskD) (text : String) : List FnReqD :=
  (tasks.filter (·.requires_api)).map (fun t => mkFnReq t text)

/-- `_detect_persona`'s `domain_names`. -/
def domainNames : List (String × String) :=
  [("healthcare", "MediBot"), ("e-commerce", "ShopAssist"), ("finance", "FinanceHelper"),
   ("travel", "TravelBuddy"), ("telecommunications", "TeleConnect"), ("food_delivery", "FoodieBot"),
   ("insurance", "InsureGuide"), ("education", "EduAssist"), ("real_estate", "PropertyPal"),
   ("automotive", "AutoCare"), ("general_support", "Ava")]

/-- `MetaOrchestrator._detect_persona`: (name, traits, style). -/
def detectPersona (text domain : String) : String × List String × String :=
  let name := (domainNames.lookup domain).getD "Ava"
  if substrB "formal" text then (name, ["professional", "courteous", "precise"], "formal")
  else if substrB "casual" text || substrB "friendly" text then
    (name, ["friendly", "upbeat", "approachable"], "casual")
  else (name, ["friendly", "professional", "helpful"], "warm")

/-- `MetaOrchestrator._detect_voice_gender`: note the male check runs first
    and uses a plain substring test. -/
def detectVoiceGender (text : String) : String :=
  if substrB "male voice" text || substrB "male agent" text then "male"
  else if substrB "female voice" text || substrB "female agent" text then "female"
  else "female"

/-- `_role_for_domain`'s table. -/
def domainRoles : List (String × String) :=
  [("healthcare", "Appointment & Patient Support Agent"),
   ("e-commerce", "Order & Shopping Support Agent"),
   ("finance", "Account & Financial Support Agent"),
   ("travel", "Booking & Travel Support Agent"),
   ("telecommunications", "Service & Billing Support Agent"),
   ("food_delivery", "Order & Delivery Support Agent"),
   ("insurance", "Claims & Policy Support Agent"),
   ("education", "Enrollment & Course Support Agent"),
   ("real_estate", "Property & Leasing Support Agent"),
   ("automotive", "Service & Repair Support Agent"),
   ("general_support", "Customer Support Agent")]

/-- `MetaOrchestrator._role_for_domain`. -/
def roleForDomain (domain : String) : String :=
  (domainRoles.lookup domain).getD "Customer Support Agent"

def natStr (n : Nat) : String := Nat.repr n

/-- `MetaOrchestrator._build_flow_summary`. -/
def flowSummarySteps (tasks : List TaskD) : List String :=
  let init : List String × Nat := (["Step 1: Greet the caller and introduce the service"], 2)
  let sn := tasks.foldl
    (fun (acc : List String × Nat) task =>
      if task.task_name == "Greeting" then acc
      else
        let acc2 := task.data_to_collect.foldl
          (fun (a : List String × Nat) slot =>
            (a.1 ++ ["Step " ++ natStr a.2 ++ ": Ask for the customer's " ++ underscoresToSpaces slot],
             a.2 + 1)) acc
        if task.requires_api then
          (acc2.1 ++ ["Step " ++ natStr acc2.2 ++ ": " ++ task.api_description,
                      "Step " ++ natStr (acc2.2 + 1) ++ ": Communicate the result to the caller"],
           acc2.2 + 2)
        else acc2) init
  sn.1 ++ ["Step " ++ natStr sn.2 ++ ": Ask if there's anything else",
           "Step " ++ natStr (sn.2 + 1) ++ ": End the call politely"]

/-- The analysis brief of `_analyze_with_rules` (its `ambiguities` key is the
    constant empty list). -/
structure AnalysisD where
  domain : String
  agent_name_suggestion : String
  agent_role : String
  personality_traits : List String
  greeting_style : String
  language : String
  voice_gender : String
  tasks : List TaskD
  functions_needed : List FnReqD
  flow_summary : List String
  ambiguities : List String
  platform : String
  user_requested_slots : List String
deriving DecidableEq, Repr

/-- `MetaOrchestrator._analyze_with_rules`. -/
def analyzeWithRules (userPrompt language platform : String) : AnalysisD :=
  let promptLower := lowerStr userPrompt
  let domain := detectDomain promptLower
  let userSlots := extractUserSlots promptLower
  let tasks0 := detectTasks promptLower domain
  let tasks := if userSlots.isEmpty then tasks0
               else mergeUserSlotsIntoTasks tasks0 userSlots
  let functionsNeeded := detectFunctions tasks promptLower
  let pts := detectPersona promptLower domain
  { domain := domain
    agent_name_suggestion := pts.1
    agent_role := titleStr domain ++ " " ++ roleForDomain domain
    personality_traits := pts.2.1
    greeting_style := pts.2.2
    language := language
    voice_gender := detectVoiceGender promptLower
    tasks := tasks
    functions_needed := functionsNeeded
    flow_summary := flowSummarySteps tasks
    ambiguities := []
    platform := platform
    user_requested_slots := userSlots }

/-! ### Flow synthesizer (`agent_creator.py`) -/

/-- A transition dict of `_build_flow` / `FlowTransition`. -/
structure TransD where
  condition : String
  target_node_id : String
deriving DecidableEq, Repr

/-- A node dict of `_build_flow` / `FlowNode` (`type` is the node-type
    string). -/
structure NodeD where
  node_id : String
  type : String
  label : String
  prompt_text : Option String
  collect_slot : Option String
  function_call : Option String
  transitions : List TransD
deriving DecidableEq, Repr

/-- The flow dict of `_build_flow` / `ConversationFlow`. -/
structure FlowD where
  name : String
  description : String
  entry_node_id : String
  nodes : List NodeD
deriving DecidableEq, Repr

/-- `_slot_prompt`'s `slot_prompts` table. -/
def slotPromptTable : List (String × String) :=
  [("name", "Could I please have your name?"),
   ("customer_name", "Could I please have your name?"),
   ("full_name", "May I have your full name, please?"),
   ("first_name", "What's your first name?"),
   ("date", "What date works best for you?"),
   ("appointment_date", "What date would you like to schedule your appointment?"),
   ("preferred_date", "When would you prefer to come in?"),
   ("time", "And what time would you prefer?"),
   ("appointment_time", "What time would you like your appointment?"),
   ("preferred_time", "What time works best for you?"),
   ("email", "Could you provide your email address?"),
   ("phone", "What's the best phone number to reach you at?"),
   ("phone_number", "What's the best phone number to reach you at?"),
   ("service", "What type of service are you looking for?"),
   ("service_type", "What type of service do you need?"),
   ("reason", "Could you tell me the reason for your visit?"),
   ("location", "Which location would you prefer?"),
   ("order_number", "Could you provide your order number?"),
   ("account_number", "What's your account number?"),
   ("issue", "Could you describe the issue you're experiencing?"),
   ("product", "Which product are you inquiring about?")]

/-- `AgentCreator._slot_prompt` (the agent-name argument is unused in the
    source as well). -/
def slotPrompt (slot : String) (_agentName : String) : String :=
  (slotPromptTable.lookup (lowerStr slot)).getD
    ("Could you please provide your " ++ underscoresToSpaces slot ++ "?")

def nodeIds (nodes : List NodeD) : List String := nodes.map (·.node_id)

/-- `node_map[nid]`: the dict comprehension keeps, for each id, the last
    node dict carrying it. -/
def lastNode (nodes : List NodeD) (nid : String) : Option NodeD :=
  nodes.reverse.find? (fun n => n.node_id == nid)

/-- One entry of `task_groups` in `_wire_transitions`. -/
def taskGroup (ids : List String) (task : TaskD) : List String :=
  let tid := pyId task.task_name
  let collectIds :=
    (task.data_to_collect.map (fun slot => "node_collect_" ++ pyId slot)).filter
      (fun nid => ids.contains nid)
  let apiIds :=
    if task.requires_api then
      (if ids.contains ("node_api_" ++ tid) then ["node_api_" ++ tid] else []) ++
      (if ids.contains ("node_decision_" ++ tid) then ["node_decision_" ++ tid] else [])
    else []
  collectIds ++ apiIds

def taskGroups (ids : List String) (tasks : List TaskD) : List (List String) :=
  tasks.map (taskGroup ids)

/-! `_wire_transitions` mutates node dicts through `node_map`; since that
map keeps only the last dict per id, every append reaches the last dict
with the given id, and an earlier dict sharing the id keeps its own list.
The embedding renders each append as an `(id, transition)` operation in
source order (`wireOps`) and then hands node `i` the operations for its id
exactly when `i` is the last index carrying that id. -/

/-- The greeting append: to the first task group's first node when that
    group is non-empty (`if task_groups and task_groups[0]`), else to
    `node_confirm`. -/
def greetOps (groups : List (List String)) : List (String × TransD) :=
  match groups with
  | (t0 :: _) :: _ => [("node_greet", { condition := "user_responds", target_node_id := t0 })]
  | _ => [("node_greet", { condition := "user_responds", target_node_id := "node_confirm" })]

/-- The appends of one iteration of the within-group chaining loop. -/
def chainOpsAt (nodes : List NodeD) (group : List String) (i : Nat) (nid : String) :
    List (String × TransD) :=
  let next := group.get? (i + 1)
  match lastNode nodes nid with
  | none => []
  | some node =>
      if node.type == "collect_info" then
        [(nid, { condition := "slot_filled", target_node_id := next.getD "node_confirm" })]
      else if node.type == "api_call" then
        [(nid, { condition := "api_response_received", target_node_id := next.getD "node_confirm" })]
      else if node.type == "decision" then
        let tname : String := ⟨stripND nid.data⟩
        let succ := "node_success_" ++ tname
        let fail := "node_failure_" ++ tname
        (if (nodeIds nodes).contains succ then
          [(nid, { condition := "success", target_node_id := succ }),
           (succ, { condition := "continue", target_node_id := "node_confirm" })]
         else []) ++
        (if (nodeIds nodes).contains fail then
          [(nid, { condition := "failure", target_node_id := fail }),
           (fail, { condition := "user_wants_transfer", target_node_id := "node_transfer" }),
           (fail, { condition := "user_declines_transfer", target_node_id := "node_confirm" })]
         else [])
      else []

def chainOps (nodes : List NodeD) (group : List String) : List (String × TransD) :=
  (group.enum.map (fun p => chainOpsAt nodes group p.1 p.2)).flatten

/-- The confirm / fallback / transfer appends closing `_wire_transitions`. -/
def tailOps (ids : List String) : List (String × TransD) :=
  (if ids.contains "node_confirm" then
    [("node_confirm", { condition := "nothing_else", target_node_id := "node_end" }),
     ("node_confirm", { condition := "has_more_questions", target_node_id := "node_greet" })]
   else []) ++
  (if ids.contains "node_fallback" then
    [("node_fallback", { condition := "retry", target_node_id := "node_greet" })]
   else []) ++
  (if ids.contains "node_transfer" then
    [("node_transfer", { condition := "transferred", target_node_id := "node_end" })]
   else [])

/-- All transition appends of `_wire_transitions`, in source order. -/
def wireOps (nodes : List NodeD) (tasks : List TaskD) : List (String × TransD) :=
  let ids := nodeIds nodes
  let groups := taskGroups ids tasks
  greetOps groups ++ (groups.map (chainOps nodes)).flatten ++ tailOps ids

/-- The transitions appended to the node dict with the given id. -/
def transFor (ops : List (String × TransD)) (nid : String) : List TransD :=
  (ops.filter (fun op => op.1 == nid)).map (·.2)

/-- `AgentCreator._wire_transitions` (its `functions_needed` argument is
    unused in the source as well). -/
def wireTransitions (nodes : List NodeD) (tasks : List TaskD) (_fns : List FnReqD) :
    List NodeD :=
  let ops := wireOps nodes tasks
  nodes.enum.map (fun (p : Nat × NodeD) =>
    if ((nodes.drop (p.1 + 1)).map (·.node_id)).contains p.2.node_id then p.2
    else { p.2 with transitions := p.2.transitions ++ transFor ops p.2.node_id })

/-- The greeting node emitted first by `_build_flow`. -/
def greetNode (agentName : String) : NodeD :=
  { node_id := "node_greet", type := "greeting", label := "Welcome Greeting"
    prompt_text := some ("Hello! Thank you for calling. My name is " ++ agentName ++
      ", and I'm here to help you today. How can I assist you?")
    collect_slot := none, function_call := none, transitions := [] }

/-- One `collect_info` node of `_build_flow`. -/
def collectNode (agentName slot : String) : NodeD :=
  { node_id := "node_collect_" ++ pyId slot, type := "collect_info"
    label := "Collect " ++ titleStr (underscoresToSpaces slot)
    prompt_text := some (slotPrompt slot agentName)
    collect_slot := some (pyId slot), function_call := none, transitions := [] }

/-- `matching_fn` of `_build_flow`: the first function whose name contains
    the task id, or whose name occurs in the task's API description; else
    the first available function; else `None`. -/
def matchingFn (fns : List FnReqD) (task : TaskD) : Option String :=
  match (fns.find? (fun fn => substrB (pyId task.task_name) fn.name ||
      substrB fn.name task.api_description)).map (fun fn => fn.name) with
  | some m => some m
  | none => fns.head?.map (fun fn => fn.name)

/-- The `api_call` node of `_build_flow`. -/
def apiNode (tid : String) (matching : Option String) : NodeD :=
  { node_id := "node_api_" ++ tid, type := "api_call"
    label := "Call API for " ++ titleStr (underscoresToSpaces tid)
    prompt_text := some "One moment while I look that up for you..."
    collect_slot := none, function_call := matching, transitions := [] }

/-- The `decision` node of `_build_flow`. -/
def decisionNode (tid : String) : NodeD :=
  { node_id := "node_decision_" ++ tid, type := "decision"
    label := "Check " ++ titleStr (underscoresToSpaces tid) ++ " Result"
    prompt_text := none, collect_slot := none, function_call := none, transitions := [] }

/-- The success `response` node of `_build_flow`. -/
def successNode (tid : String) : NodeD :=
  { node_id := "node_success_" ++ tid, type := "response"
    label := titleStr (underscoresToSpaces tid) ++ " — Success"
    prompt_text := some ("Great news! I've processed your " ++ underscoresToSpaces tid ++
      " successfully.")
    collect_slot := none, function_call := none, transitions := [] }

/-- The failure `response` node of `_build_flow`. -/
def failureNode (tid : String) : NodeD :=
  { node_id := "node_failure_" ++ tid, type := "response"
    label := titleStr (underscoresToSpaces tid) ++ " — Failure"
    prompt_text := some ("I'm sorry, I wasn't able to complete your " ++
      underscoresToSpaces tid ++ " at this time. Would you like me to transfer you to a team member?")
    collect_slot := none, function_call := none, transitions := [] }

/-- The node group `_build_flow` emits for one task: one `collect_info` node
    per slot, then (for API tasks) the `api_call` / `decision` /
    success-`response` / failure-`response` quartet. -/
def taskNodes (agentName : String) (fns : List FnReqD) (task : TaskD) : List NodeD :=
  task.data_to_collect.map (collectNode agentName) ++
    (if task.requires_api then
      [apiNode (pyId task.task_name) (matchingFn fns task),
       decisionNode (pyId task.task_name),
       successNode (pyId task.task_name),
       failureNode (pyId task.task_name)]
     else [])

def confirmNode : NodeD :=
  { node_id := "node_confirm", type := "confirm", label := "Confirm & Anything Else"
    prompt_text := some "Is there anything else I can help you with today?"
    collect_slot := none, function_call := none, transitions := [] }

def fallbackNode : NodeD :=
  { node_id := "node_fallback", type := "fallback", label := "Fallback / Didn't Understand"
    prompt_text := some "I'm sorry, I didn't quite catch that. Could you please repeat what you said?"
    collect_slot := none, function_call := none, transitions := [] }

def transferNode : NodeD :=
  { node_id := "node_transfer", type := "transfer", label := "Transfer to Human Agent"
    prompt_text := some ("I appreciate your patience. Let me connect you with a team member " ++
      "who can help you further. Please hold for just a moment.")
    collect_slot := none, function_call := none, transitions := [] }

def endNode : NodeD :=
  { node_id := "node_end", type := "end", label := "End Call"
    prompt_text := some "Thank you for calling! Have a wonderful day. Goodbye!"
    collect_slot := none, function_call := none, transitions := [] }

/-- Python `", ".join(...)`. -/
def joinComma : List String → String
  | [] => ""
  | [s] => s
  | s :: q :: r => s ++ ", " ++ joinComma (q :: r)

/-- `AgentCreator._build_flow`. -/
def buildFlow (analysis : AnalysisD) : FlowD :=
  let tasks := analysis.tasks
  let fns := analysis.functions_needed
  let agentName := analysis.agent_name_suggestion
  let nodes := greetNode agentName ::
    ((tasks.map (taskNodes agentName fns)).flatten ++
      [confirmNode, fallbackNode, transferNode, endNode])
  { name := analysis.domain ++ "_flow"
    description := "Conversation flow for " ++ agentName ++ " handling " ++
      joinComma (tasks.map (fun t => t.task_name))
    entry_node_id := "node_greet"
    nodes := wireTransitions nodes tasks fns }

/-! ### Function creator (`function_creator.py`) -/

/-- JSON-like values (mock responses). Numeric literals are kept verbatim as
    text: the source never computes with them. -/
inductive JVal where
  | jstr : String → JVal
  | jnum : String → JVal
  | jbool : Bool → JVal
  | jarr : List JVal → JVal
  | jobj : List (String × JVal) → JVal

/-- A parameter dict of a function definition: `Option` fields model keys a
    dict may lack (`p.get("required", True)` etc.); `name` is read with
    `p["name"]` and so is always present. -/
structure ParamD where
  name : String
  type : Option String
  description : Option String
  required : Option Bool
  default : Option JVal
  enum : Option (List String)

/-- The `api_endpoint` dict of `_build_endpoint`. -/
structure EndpointD where
  url : String
  method : String
  headers : List (String × String)
  auth_type : Option String
  timeout_seconds : Nat
deriving DecidableEq, Repr

/-- A function definition dict (`_build_function` output /
    `FunctionDefinition`). -/
structure FnDefD where
  name : String
  description : String
  parameters : List ParamD
  returns_description : String
  api_endpoint : Option EndpointD
  mock_response : Option JVal

/-- `FunctionCreator._infer_http_method`. -/
def inferHttpMethod (name purpose : String) : String :=
  let nameL := lowerStr name
  let purposeL := lowerStr purpose
  if ["get", "fetch", "list", "check", "search", "find", "lookup"].any
      (fun kw => substrB kw nameL) then "GET"
  else if ["create", "book", "schedule", "submit", "register"].any
      (fun kw => substrB kw nameL) then "POST"
  else if ["update", "modify", "change"].any (fun kw => substrB kw nameL) then "PUT"
  else if ["delete", "cancel", "remove"].any (fun kw => substrB kw nameL) then "DELETE"
  else if ["retrieve", "query", "look up"].any (fun kw => substrB kw purposeL) then "GET"
  else "POST"

/-- `_build_endpoint`'s verb-token set. -/
def endpointVerbs : List String :=
  ["get", "fetch", "create", "book", "update", "delete", "check", "list", "search",
   "submit", "cancel"]

/-- `FunctionCreator._build_endpoint` (the braces of the f-string path
    template `/{param}` are literal characters of the produced URL). -/
def buildEndpoint (name method : String) (parameters : List ParamD) : EndpointD :=
  let parts := splitUnderscore name.data
  let resourceParts := parts.filter (fun p => !(endpointVerbs.contains (lowerStr ⟨p⟩)))
  let resourceParts2 :=
    if resourceParts.isEmpty then (if parts.length > 1 then parts.tail else parts)
    else resourceParts
  let urlPath := joinSlash resourceParts2
  let urlPath2 :=
    if method == "GET" then
      match parameters.filter (fun p => substrB "id" (lowerStr p.name)) with
      | [] => urlPath
      | p0 :: _ => urlPath ++ ('/' :: '\x7b' :: (p0.name.data ++ ['\x7d']))
    else urlPath
  { url := "/api/v1/" ++ (⟨urlPath2⟩ : String)
    method := method
    headers := [("Content-Type", "application/json")]
    auth_type := some "bearer"
    timeout_seconds := 10 }

/-- `_generate_mock_response`'s `mock_templates`, in dict order. -/
def mockTemplates : List (String × JVal) :=
  [("appointment", JVal.jobj
     [("success", JVal.jbool true),
      ("data", JVal.jobj
        [("available_slots", JVal.jarr
           [JVal.jobj [("date", JVal.jstr "2026-02-24"), ("time", JVal.jstr "09:00 AM"),
                       ("available", JVal.jbool true)],
            JVal.jobj [("date", JVal.jstr "2026-02-24"), ("time", JVal.jstr "10:30 AM"),
                       ("available", JVal.jbool true)],
            JVal.jobj [("date", JVal.jstr "2026-02-24"), ("time", JVal.jstr "02:00 PM"),
                       ("available", JVal.jbool true)]]),
         ("timezone", JVal.jstr "America/New_York")]),
      ("message", JVal.jstr "Available slots retrieved successfully")]),
   ("book", JVal.jobj
     [("success", JVal.jbool true),
      ("data", JVal.jobj
        [("booking_id", JVal.jstr "BK-20260224-001"), ("status", JVal.jstr "confirmed"),
         ("confirmation_code", JVal.jstr "CONF-7829"), ("date", JVal.jstr "2026-02-24"),
         ("time", JVal.jstr "10:30 AM")]),
      ("message", JVal.jstr "Appointment booked successfully")]),
   ("order", JVal.jobj
     [("success", JVal.jbool true),
      ("data", JVal.jobj
        [("order_id", JVal.jstr "ORD-2026-4521"), ("status", JVal.jstr "shipped"),
         ("tracking_number", JVal.jstr "1Z999AA10123456784"),
         ("estimated_delivery", JVal.jstr "2026-02-26"),
         ("items", JVal.jarr
           [JVal.jobj [("name", JVal.jstr "Product A"), ("quantity", JVal.jnum "1"),
                       ("price", JVal.jnum "29.99")]])]),
      ("message", JVal.jstr "Order details retrieved successfully")]),
   ("account", JVal.jobj
     [("success", JVal.jbool true),
      ("data", JVal.jobj
        [("account_id", JVal.jstr "ACC-78291"), ("name", JVal.jstr "John Smith"),
         ("status", JVal.jstr "active"), ("balance", JVal.jnum "1250.00"),
         ("last_activity", JVal.jstr "2026-02-23")]),
      ("message", JVal.jstr "Account information retrieved successfully")]),
   ("cancel", JVal.jobj
     [("success", JVal.jbool true),
      ("data", JVal.jobj
        [("cancellation_id", JVal.jstr "CAN-20260224-003"), ("status", JVal.jstr "cancelled"),
         ("refund_amount", JVal.jnum "29.99"), ("refund_eta", JVal.jstr "3-5 business days")]),
      ("message", JVal.jstr "Cancellation processed successfully")]),
   ("transfer", JVal.jobj
     [("success", JVal.jbool true),
      ("data", JVal.jobj
        [("transfer_id", JVal.jstr "TRF-001"), ("department", JVal.jstr "Customer Support"),
         ("estimated_wait", JVal.jstr "2 minutes"), ("queue_position", JVal.jnum "3")]),
      ("message", JVal.jstr "Transfer initiated")]),
   ("verify", JVal.jobj
     [("success", JVal.jbool true),
      ("data", JVal.jobj
        [("verified", JVal.jbool true), ("customer_id", JVal.jstr "CUST-45678"),
         ("name", JVal.jstr "John Smith")]),
      ("message", JVal.jstr "Customer verified successfully")])]

/-- `FunctionCreator._generate_mock_response` (`expected_output` and
    `parameters` are unused in the source as well). -/
def generateMockResponse (name : String) (_expectedOutput : String)
    (_parameters : List ParamD) : JVal :=
  let nameL := lowerStr name
  match mockTemplates.find? (fun p => substrB p.1 nameL) with
  | some p => p.2
  | none =>
      JVal.jobj
        [("success", JVal.jbool true),
         ("data", JVal.jobj
           [("result", JVal.jstr ("Operation '" ++ name ++ "' completed successfully")),
            ("id", JVal.jstr "RES-20260224-001"),
            ("timestamp", JVal.jstr "2026-02-24T10:30:00Z")]),
         ("message", JVal.jstr (titleStr (underscoresToSpaces name) ++ " completed successfully"))]

/-- `FunctionCreator._build_function`: every `.get` default concerns a key
    that is present on the rule-produced requirement dicts, so the fields
    are read directly. -/
def buildFunction (fnReq : FnReqD) : FnDefD :=
  let name := fnReq.name
  let purpose := fnReq.purpose
  let parameters : List ParamD := fnReq.input_params.map (fun param =>
    { name := param.name, type := some param.type
      description := some param.description
      required := some true, default := none, enum := none })
  let method := inferHttpMethod name purpose
  { name := name
    description := purpose ++ ". This function is called during the conversation when the agent needs to " ++
      lowerStr purpose ++ ". Returns: " ++ fnReq.expected_output
    parameters := parameters
    returns_description := fnReq.expected_output
    api_endpoint := some (buildEndpoint name method parameters)
    mock_response := some (generateMockResponse name fnReq.expected_output parameters) }

/-- `FunctionCreator._create_with_rules` (also the value of
    `create_functions` on the rule path, where the empty-input early return
    coincides with the empty map). -/
def createFunctionsRules (functionsNeeded : List FnReqD) : List FnDefD :=
  functionsNeeded.map buildFunction

/-- A property object of the OpenAI tool schema. -/
structure PropD where
  type : String
  description : String
  enum : Option (List String)
  default : Option JVal

/-- The `function` object of an OpenAI tool schema (its `parameters` wrapper
    is the constant `{type: "object", properties, required}`, flattened
    here into the two varying fields). -/
structure ToolFnD where
  name : String
  description : String
  properties : List (String × PropD)
  required : List String

structure ToolD where
  type : String
  function : ToolFnD

/-- One iteration of the parameter loop of `to_openai_tools`: build the
    property object (`if p.get("enum")` is Python truthiness — non-`None`
    and non-empty; `default` is added when not `None`), insert it into the
    `properties` dict, and append the name to `required` when
    `p.get("required", True)` is truthy. -/
def toolFoldStep (acc : List (String × PropD) × List String) (p : ParamD) :
    List (String × PropD) × List String :=
  let prop0 : PropD :=
    { type := p.type.getD "string", description := p.description.getD ""
      enum := none, default := none }
  let prop1 :=
    match p.enum with
    | some l => if l.isEmpty then prop0 else { prop0 with enum := some l }
    | none => prop0
  let prop2 :=
    match p.default with
    | some v => { prop1 with default := some v }
    | none => prop1
  (dictInsert p.name prop2 acc.1,
   if p.required.getD true then acc.2 ++ [p.name] else acc.2)

/-- One tool schema of `FunctionCreator.to_openai_tools`: the loop fills the
    `properties` dict and the `required` list in one pass over the
    parameters. -/
def toolOf (fn : FnDefD) : ToolD :=
  let pr := fn.parameters.foldl toolFoldStep ([], [])
  { type := "function"
    function := { name := fn.name, description := fn.description
                  properties := pr.1, required := pr.2 } }

/-- `FunctionCreator.to_openai_tools`. -/
def toOpenaiTools (functions : List FnDefD) : List ToolD :=
  functions.map toolOf

/-! ### Persona, voice and intents (`agent_creator.py`) -/

/-- The dict `_build_persona` returns (`greeting_text` is its
    `_greeting_text` key). -/
structure PersonaRawD where
  name : String
  role : String
  personality_traits : List String
  greeting_style : String
  system_prompt : String
  fallback_message : String
  escalation_message : String
  max_retries : Nat
  greeting_text : String
deriving DecidableEq, Repr

/-- The task section of the system prompt (`task_instructions`). -/
def taskInstructions (tasks : List TaskD) : String :=
  (tasks.enum.map (fun (p : Nat × TaskD) =>
    let task := p.2
    "\n" ++ natStr (p.1 + 1) ++ ". **" ++ task.task_name ++ "**: " ++ task.description ++
    (if task.data_to_collect.isEmpty then ""
     else "\n   - Collect: " ++ joinComma task.data_to_collect) ++
    (if task.requires_api then "\n   - API Integration: " ++ task.api_description
     else ""))).foldl (· ++ ·) ""

/-- The assembled system prompt of `_build_persona`. -/
def systemPromptFor (name : String) (traits : List String) (role domain : String)
    (tasks : List TaskD) : String :=
  "You are " ++ name ++ ", a " ++ joinComma traits ++ " " ++ role ++ " specializing in " ++
  domain ++ ". You handle phone conversations with customers and your primary tasks are:\n" ++
  taskInstructions tasks ++ "\n\n" ++
  "## Conversation Guidelines\n" ++
  "- Always greet the caller warmly and introduce yourself by name.\n" ++
  "- Speak clearly and at a moderate pace.\n" ++
  "- Confirm information back to the caller before proceeding.\n" ++
  "- If you don't understand something, politely ask for clarification.\n" ++
  "- If you cannot help with a request, offer to transfer to a human agent.\n" ++
  "- Keep responses concise — callers prefer short, clear answers.\n" ++
  "- End every call by asking if there's anything else you can help with.\n\n" ++
  "## Error Handling\n" ++
  "- If an API call fails, apologize and offer to try again or escalate.\n" ++
  "- After 3 failed attempts to understand, escalate to a human.\n" ++
  "- Never make up information — only state what you know or can look up.\n\n" ++
  "## Tone\n" ++
  "- You are " ++ joinComma traits ++ ".\n" ++
  "- Match the caller's energy level while maintaining professionalism.\n" ++
  "- Use the caller's name once you have it to personalize the experience."

/-- `_build_persona`'s `greeting_map` lookup (unknown styles fall back to
    `warm`). -/
def greetingTextFor (style name role : String) : String :=
  if style == "formal" then
    "Good day. This is " ++ name ++ ", your " ++ role ++ ". How may I assist you today?"
  else if style == "casual" then
    "Hey there! I'm " ++ name ++ ". What can I help you with today?"
  else
    "Hello! Thank you for calling. My name is " ++ name ++
    ", and I'm here to help you today. How can I assist you?"

/-- `AgentCreator._build_persona`. -/
def buildPersona (analysis : AnalysisD) : PersonaRawD :=
  let name := analysis.agent_name_suggestion
  let role := analysis.agent_role
  let traits := analysis.personality_traits
  let style := analysis.greeting_style
  { name := name, role := role, personality_traits := traits, greeting_style := style
    system_prompt := systemPromptFor name traits role analysis.domain analysis.tasks
    fallback_message := "I'm sorry, I didn't quite catch that. Could you please repeat what you said?"
    escalation_message := "I appreciate your patience. Let me connect you with a team member who can help you further. Please hold for just a moment."
    max_retries := 3
    greeting_text := greetingTextFor style name role }

/-- The dict `_build_voice` returns (`speaking_rate`/`pitch` are the float
    constants `1.0`/`0.0`, kept verbatim as text: the source never computes
    with them). -/
structure VoiceRawD where
  provider : String
  voice_id : String
  gender : String
  language : String
  speaking_rate : String
  pitch : String
deriving DecidableEq, Repr

/-- `_build_voice`'s `voice_map`. -/
def voiceMap : List ((String × String) × String) :=
  [(("female", "en-US"), "en-US-Neural2-F"), (("male", "en-US"), "en-US-Neural2-D"),
   (("neutral", "en-US"), "en-US-Neural2-C"), (("female", "en-GB"), "en-GB-Neural2-A"),
   (("male", "en-GB"), "en-GB-Neural2-B"), (("female", "hi-IN"), "hi-IN-Neural2-A"),
   (("male", "hi-IN"), "hi-IN-Neural2-B"), (("female", "es-ES"), "es-ES-Neural2-A")]

/-- `AgentCreator._build_voice`. -/
def buildVoice (analysis : AnalysisD) : VoiceRawD :=
  { provider := "google"
    voice_id := (voiceMap.lookup (analysis.voice_gender, analysis.language)).getD "en-US-Neural2-F"
    gender := analysis.voice_gender
    language := analysis.language
    speaking_rate := "1.0"
    pitch := "0.0" }

structure PhraseRawD where
  text : String
  language : String
deriving DecidableEq, Repr

structure IntentRawD where
  name : String
  description : String
  training_phrases : List PhraseRawD
  priority : Nat
deriving DecidableEq, Repr

/-- `AgentCreator._build_intents`. -/
def buildIntents (analysis : AnalysisD) : List IntentRawD :=
  let lang := analysis.language
  let head : IntentRawD :=
    { name := "greeting", description := "Caller greets the agent or starts the conversation"
      training_phrases :=
        [⟨"Hello", lang⟩, ⟨"Hi there", lang⟩, ⟨"Good morning", lang⟩, ⟨"Hey", lang⟩,
         ⟨"I need help", lang⟩]
      priority := 5 }
  let taskIntents := analysis.tasks.map (fun task =>
    let taskName := pyId task.task_name
    let desc := task.description
    ({ name := "request_" ++ taskName
       description := "Caller wants to: " ++ desc
       training_phrases :=
         [⟨"I want to " ++ lowerStr desc, lang⟩,
          ⟨"Can you help me " ++ lowerStr desc, lang⟩,
          ⟨"I need to " ++ underscoresToSpaces taskName, lang⟩,
          ⟨"Please " ++ lowerStr desc, lang⟩]
       priority := 3 } : IntentRawD))
  head :: taskIntents ++
    [{ name := "fallback", description := "Caller's request is not understood"
       training_phrases := [], priority := 0 },
     { name := "request_human_agent", description := "Caller wants to speak with a human"
       training_phrases :=
         [⟨"I want to talk to a person", lang⟩, ⟨"Transfer me to a human", lang⟩,
          ⟨"Can I speak with someone", lang⟩, ⟨"Let me talk to a real person", lang⟩]
       priority := 8 }]

/-- The dict `AgentCreator._create_with_rules` returns. -/
structure AgentConfigRawD where
  persona : PersonaRawD
  voice : VoiceRawD
  intents : List IntentRawD
  conversation_flow : FlowD

/-- `AgentCreator._create_with_rules` (also `create_agent_config` with no
    LLM client). -/
def createAgentConfigRules (analysis : AnalysisD) : AgentConfigRawD :=
  { persona := buildPersona analysis
    voice := buildVoice analysis
    intents := buildIntents analysis
    conversation_flow := buildFlow analysis }

/-! ### Config merge (`orchestrator._merge_config`, `models.py`)

The pydantic models draw fresh identifiers from `uuid4` and the creation
timestamp from `datetime.utcnow` via `default_factory`; one invocation's
draws are embedded as an explicit environment. -/

/-- The identifier/timestamp draws of one `process_request` invocation:
    `CXAgentConfig.agent_id` and `created_at`, `ConversationFlow.flow_id`,
    and the per-position `IntentDefinition.intent_id` /
    `FunctionDefinition.function_id`. -/
structure Env where
  agentId : String
  createdAt : String
  flowId : String
  intentId : Nat → String
  functionId : Nat → String

structure PersonaConfigM where
  name : String
  role : String
  personality_traits : List String
  greeting_style : String
  system_prompt : String
  fallback_message : String
  escalation_message : String
  max_retries : Nat

structure VoiceConfigM where
  provider : String
  voice_id : String
  gender : String
  language : String
  speaking_rate : String
  pitch : String

structure TrainingPhraseM where
  text : String
  language : String

structure IntentDefinitionM where
  intent_id : String
  name : String
  description : String
  training_phrases : List TrainingPhraseM
  priority : Nat

structure FunctionParameterM where
  name : String
  type : String
  description : String
  required : Bool
  default : Option JVal
  enum : Option (List String)

structure APIEndpointM where
  url : String
  method : String
  headers : List (String × String)
  auth_type : Option String
  timeout_seconds : Nat

structure FunctionDefinitionM where
  function_id : String
  name : String
  description : String
  parameters : List FunctionParameterM
  returns_description : String
  api_endpoint : Option APIEndpointM
  mock_response : Option JVal

structure FlowTransitionM where
  condition : String
  target_node_id : String

structure FlowNodeM where
  node_id : String
  type : String
  label : String
  prompt_text : Option String
  collect_slot : Option String
  function_call : Option String
  transitions : List FlowTransitionM

structure ConversationFlowM where
  flow_id : String
  name : String
  description : String
  entry_node_id : String
  nodes : List FlowNodeM

structure DeploymentConfigM where
  platform : String
  phone_number : Option String
  webhook_url : Option String
  environment : String
  max_concurrent_calls : Nat
  recording_enabled : Bool
  analytics_enabled : Bool

structure CXAgentConfigM where
  agent_id : String
  version : String
  status : String
  created_at : String
  persona : PersonaConfigM
  voice : VoiceConfigM
  intents : List IntentDefinitionM
  functions : List FunctionDefinitionM
  conversation_flow : Option ConversationFlowM
  deployment : DeploymentConfigM
  metadata : List (String × String)

/-- `MetaOrchestrator._merge_config` on the rule path (every `.get` default
    concerns a key the rule-produced dicts carry). -/
def mergeConfig (analysis : AnalysisD) (agentConfig : AgentConfigRawD)
    (functions : List FnDefD) (platform : String) (env : Env) : CXAgentConfigM :=
  let persona : PersonaConfigM :=
    { name := agentConfig.persona.name, role := agentConfig.persona.role
      personality_traits := agentConfig.persona.personality_traits
      greeting_style := agentConfig.persona.greeting_style
      system_prompt := agentConfig.persona.system_prompt
      fallback_message := agentConfig.persona.fallback_message
      escalation_message := agentConfig.persona.escalation_message
      max_retries := agentConfig.persona.max_retries }
  let voice : VoiceConfigM :=
    { provider := agentConfig.voice.provider, voice_id := agentConfig.voice.voice_id
      gender := agentConfig.voice.gender, language := agentConfig.voice.language
      speaking_rate := agentConfig.voice.speaking_rate, pitch := agentConfig.voice.pitch }
  let intents := agentConfig.intents.enum.map (fun (p : Nat × IntentRawD) =>
    ({ intent_id := env.intentId p.1, name := p.2.name, description := p.2.description
       training_phrases := p.2.training_phrases.map (fun ph =>
         { text := ph.text, language := ph.language })
       priority := p.2.priority } : IntentDefinitionM))
  let funcDefs := functions.enum.map (fun (p : Nat × FnDefD) =>
    ({ function_id := env.functionId p.1, name := p.2.name, description := p.2.description
       parameters := p.2.parameters.map (fun q =>
         ({ name := q.name, type := q.type.getD "string", description := q.description.getD ""
            required := q.required.getD true, default := q.default, enum := q.enum } :
           FunctionParameterM))
       returns_description := p.2.returns_description
       api_endpoint := p.2.api_endpoint.map (fun ep =>
         ({ url := ep.url, method := ep.method, headers := ep.headers
            auth_type := ep.auth_type, timeout_seconds := ep.timeout_seconds } : APIEndpointM))
       mock_response := p.2.mock_response } : FunctionDefinitionM))
  let flow : ConversationFlowM :=
    { flow_id := env.flowId, name := agentConfig.conversation_flow.name
      description := agentConfig.conversation_flow.description
      entry_node_id := agentConfig.conversation_flow.entry_node_id
      nodes := agentConfig.conversation_flow.nodes.map (fun n =>
        ({ node_id := n.node_id, type := n.type, label := n.label
           prompt_text := n.prompt_text, collect_slot := n.collect_slot
           function_call := n.function_call
           transitions := n.transitions.map (fun t =>
             { condition := t.condition, target_node_id := t.target_node_id }) } : FlowNodeM)) }
  { agent_id := env.agentId, version := "1.0.0", status := "draft"
    created_at := env.createdAt
    persona := persona, voice := voice, intents := intents, functions := funcDefs
    conversation_flow := some flow
    deployment :=
      { platform := platform, phone_number := none, webhook_url := none
        environment := "staging", max_concurrent_calls := 10
        recording_enabled := true, analytics_enabled := true }
    metadata := [("source_prompt", analysis.domain), ("generation_mode", "rule_based")] }

/-! ### `process_request` (`orchestrator.py` lines 98-151) -/

/-- `AgentCreateRequest` with the language tag at value level
    (`request.language.value`). -/
structure RequestM where
  user_prompt : String
  language : String
  platform : String

structure AgentCreateResponseM where
  success : Bool
  message : String
  agent_config : Option CXAgentConfigM
  openai_tools_schema : Option (List ToolD)
  raw_analysis : Option AnalysisD

/-- The values the `try` block of `process_request` produces when no stage
    raises. -/
structure PipelineOutM where
  analysis : AnalysisD
  config : CXAgentConfigM
  tools : List ToolD

/-- Steps 1-5 of `process_request` on the rule path (no LLM client). -/
def runRuleStages (request : RequestM) (env : Env) : PipelineOutM :=
  let analysis := analyzeWithRules request.user_prompt request.language request.platform
  let agentConfigRaw := createAgentConfigRules analysis
  let functionsRaw := createFunctionsRules analysis.functions_needed
  let config := mergeConfig analysis agentConfigRaw functionsRaw request.platform env
  { analysis := analysis, config := config, tools := toOpenaiTools functionsRaw }

/-- The success response of `process_request` (lines 135-143). -/
def successResponse (out : PipelineOutM) : AgentCreateResponseM :=
  { success := true
    message := "Successfully created CX agent '" ++ out.config.persona.name ++ "' with " ++
      natStr out.config.functions.length ++ " functions and " ++
      natStr out.config.intents.length ++ " intents."
    agent_config := some out.config
    openai_tools_schema := some out.tools
    raw_analysis := some out.analysis }

/-- `MetaOrchestrator.process_request`: the whole pipeline sits inside a
    `try`; an exception escaping any stage is caught (lines 145-151) and
    converted into the structured failure response, whose `agent_config`
    is `None` and whose remaining fields keep their `None` defaults. The
    stage outcome is embedded as `Except`. -/
def processRequestWith (outcome : Except String PipelineOutM) : AgentCreateResponseM :=
  match outcome with
  | Except.ok out => successResponse out
  | Except.error e =>
      { success := false
        message := "Failed to create agent: " ++ e
        agent_config := none
        openai_tools_schema := none
        raw_analysis := none }

/-- `process_request` on the rule path, whose stages are total functions. -/
def processRequestRule (request : RequestM) (env : Env) : AgentCreateResponseM :=
  processRequestWith (Except.ok (runRuleStages request env))

/-! ### Reachability in a flow graph -/

/-- Some node with id `a` carries a transition targeting `b`. -/
def EdgeOf (flow : FlowD) (a b : String) : Prop :=
  ∃ n ∈ flow.nodes, n.node_id = a ∧ ∃ t ∈ n.transitions, t.target_node_id = b

instance (flow : FlowD) (a b : String) : Decidable (EdgeOf flow a b) := by
  unfold EdgeOf
  infer_instance

/-- Reachability from the flow's entry id by following transitions. -/
inductive Reaches (flow : FlowD) : String → Prop
  | entry : Reaches flow flow.entry_node_id
  | step {a b : String} : Reaches flow a → EdgeOf flow a b → Reaches flow b

/-- Boolean certificate that the id set `R` is closed under the flow's
    transitions. -/
def closedUnder (flow : FlowD) (R : List String) : Bool :=
  flow.nodes.all (fun n =>
    !(R.contains n.node_id) || n.transitions.all (fun t => R.contains t.target_node_id))

/-! ### Identifier erasure (for the determinism claim) -/

/-- The config with every `uuid4`-drawn identifier and the `utcnow`
    timestamp blanked. -/
def eraseConfigIds (cfg : CXAgentConfigM) : CXAgentConfigM :=
  { cfg with
      agent_id := ""
      created_at := ""
      intents := cfg.intents.map (fun it => { it with intent_id := "" })
      functions := cfg.functions.map (fun f => { f with function_id := "" })
      conversation_flow := cfg.conversation_flow.map (fun fl => { fl with flow_id := "" }) }

def eraseResponseIds (r : AgentCreateResponseM) : AgentCreateResponseM :=
  { r with agent_config := r.agent_config.map eraseConfigIds }

/-- The node list `_build_flow` assembles before wiring. -/
def buildNodes (analysis : AnalysisD) : List NodeD :=
  greetNode analysis.agent_name_suggestion ::
    ((analysis.tasks.map (taskNodes analysis.agent_name_suggestion analysis.functions_needed)).flatten ++
      [confirmNode, fallbackNode, transferNode, endNode])

/-- The `Collect Email` pattern entry. -/
def collectEmailTask : TaskD :=
  { task_name := "Collect Email"
    description := "Collect the caller's email address"
    data_to_collect := ["email"]
    requires_api := false
    api_description := "" }

/-- Every task name producible by `_detect_tasks` (the fixed pattern tables,
    the greeting, and the domain defaults). -/
def allowedTaskNames : List String :=
  ["Greeting", "Collect Customer Name", "Collect Email", "Collect Phone Number",
   "Appointment Booking", "Order Status Check", "Account Inquiry", "File Complaint",
   "Cancellation Processing", "Confirm Availability", "FAQ & Information", "General Inquiry"]

/-! ### Function catalogue resolution (C4 machinery) -/

/-- Decidable form of the catalogue-resolution invariant: every `api_call`
    node carries a function reference naming some catalogue entry. -/
def apiNodesResolve (flow : FlowD) (catalog : List FnDefD) : Bool :=
  flow.nodes.all (fun n =>
    if n.type == "api_call" then
      match n.function_call with
      | some f => (catalog.map (fun d => d.name)).contains f
      | none => false
    else true)

/-- A fixed environment used to state that the erased merge result does not
    depend on the identifier draws. -/
def trivEnv : Env :=
  { agentId := "", createdAt := "", flowId := ""
    intentId := fun _ => "", functionId := fun _ => "" }

/-! ### Concrete pipeline inputs used by the claim theorems -/

/-- The analysis brief for the prompt `book an appointment` (tasks:
    Greeting, Appointment Booking). -/
def bookApptAnalysis : AnalysisD := analyzeWithRules "book an appointment" "en-US" "voiceowl"

def bookApptFlow : FlowD := buildFlow bookApptAnalysis

/-- A brief in which two detected tasks (Collect Customer Name and
    Appointment Booking) share the slot `customer_name`. -/
def sharedSlotAnalysis : AnalysisD :=
  analyzeWithRules "book an appointment and ask for name" "en-US" "voiceowl"

def sharedSlotFlow : FlowD := buildFlow sharedSlotAnalysis

/-- The spec's end-to-end scenario prompt. -/
def c5Prompt : String :=
  "Create a support bot for appointment booking. It should greet, ask for name and date, and confirm availability via an API."

def c5Analysis : AnalysisD := analyzeWithRules c5Prompt "en-US" "voiceowl"

def c5Catalog : List FnDefD := createFunctionsRules c5Analysis.functions_needed

def c5Flow : FlowD := buildFlow c5Analysis

/-- A text that mentions `email` and `phone number`. -/
def c8Text : String := "Record my email and phone number please"

/-- Two distinct draws of the `uuid4`/`utcnow` environment, standing for two
    separate invocations of the pipeline. -/
def envA : Env :=
  { agentId := "agent_323b0a1c555e", createdAt := "2026-02-24T10:00:00Z"
    flowId := "flow_9d2f11aa", intentId := fun i => "intent_a" ++ natStr i
    functionId := fun i => "fn_a" ++ natStr i }

def envB : Env :=
  { agentId := "agent_94c4ff00d21e", createdAt := "2026-02-24T10:05:00Z"
    flowId := "flow_0c7e42bb", intentId := fun i => "intent_b" ++ natStr i
    functionId := fun i => "fn_b" ++ natStr i }

def c7Request : RequestM :=
  { user_prompt := "book an appointment", language := "en-US", platform := "voiceowl" }

/-! ### Supporting lemmas -/

theorem infixB_iff (n : List Char) : ∀ h : List Char, infixB n h = true ↔ n <:+: h := by
  intro h
  induction h with
  | nil =>
      simp [infixB, List.isEmpty_iff, List.infix_nil]
  | cons c t ih =>
      simp [infixB, List.infix_cons_iff, List.isPrefixOf_iff_prefix, ih]

theorem substrB_iff (needle hay : String) :
    substrB needle hay = true ↔ needle.data <:+: hay.data := infixB_iff _ _

/-- Substring is transitive (via list-infix transitivity). -/
theorem substrB_trans {a b c : String} (h1 : substrB a b = true)
    (h2 : substrB b c = true) : substrB a c = true := by
  rw [substrB_iff] at h1 h2 ⊢
  exact h1.trans h2

theorem closedUnder_spec {flow : FlowD} {R : List String}
    (h : closedUnder flow R = true) :
    ∀ a ∈ R, ∀ b, EdgeOf flow a b → b ∈ R := by
  intro a ha b hedge
  obtain ⟨n, hn, hid, t, ht, htgt⟩ := hedge
  have hall := (List.all_eq_true.mp h) n hn
  rcases Bool.or_eq_true_iff.mp hall with hc | hall2
  · exact absurd (hid ▸ ha) (by simpa using hc)
  · have := (List.all_eq_true.mp hall2) t ht
    exact htgt ▸ List.elem_iff.mp this

/-- Everything reachable lies inside any transition-closed id set that
    holds the entry id. -/
theorem reaches_mem_of_closed {flow : FlowD} {R : List String}
    (hentry : flow.entry_node_id ∈ R)
    (hclosed : ∀ a ∈ R, ∀ b, EdgeOf flow a b → b ∈ R) :
    ∀ x, Reaches flow x → x ∈ R := by
  intro x hx
  induction hx with
  | entry => exact hentry
  | step _ hedge ih => exact hclosed _ ih _ hedge

/-! ### Properties of the wiring embedding -/

theorem transFor_ne_nil {ops : List (String × TransD)} {k : String} {tr : TransD}
    (h : (k, tr) ∈ ops) : transFor ops k ≠ [] := by
  have : (k, tr) ∈ ops.filter (fun op => op.1 == k) :=
    List.mem_filter.mpr ⟨h, by simp⟩
  have : tr ∈ transFor ops k := List.mem_map.mpr ⟨(k, tr), this, rfl⟩
  exact List.ne_nil_of_mem this

theorem wireTransitions_map_id (nodes : List NodeD) (tasks : List TaskD)
    (fns : List FnReqD) :
    (wireTransitions nodes tasks fns).map (fun n => n.node_id) =
      nodes.map (fun n => n.node_id) := by
  unfold wireTransitions
  rw [List.map_map]
  have : ((fun n => n.node_id) ∘ fun (p : Nat × NodeD) =>
      if ((nodes.drop (p.1 + 1)).map (fun n => n.node_id)).contains p.2.node_id then p.2
      else { p.2 with transitions := p.2.transitions ++ transFor (wireOps nodes tasks) p.2.node_id }) =
      (fun (p : Nat × NodeD) => p.2.node_id) := by
    funext p
    simp only [Function.comp]
    split <;> rfl
  rw [this]
  have h2 : (fun (p : Nat × NodeD) => p.2.node_id) =
      ((fun n => n.node_id) ∘ Prod.snd) := rfl
  rw [h2, ← List.map_map, List.enum_map_snd]

/-- Every wired node keeps its source node's id, type, slot and function
    reference. -/
theorem mem_wireTransitions {nodes : List NodeD} {tasks : List TaskD} {fns : List FnReqD} :
    ∀ n' ∈ wireTransitions nodes tasks fns, ∃ n ∈ nodes,
      n'.node_id = n.node_id ∧ n'.type = n.type ∧ n'.collect_slot = n.collect_slot ∧
      n'.function_call = n.function_call := by
  intro n' hn'
  unfold wireTransitions at hn'
  obtain ⟨p, hp, rfl⟩ := List.mem_map.mp hn'
  have hmem : p.2 ∈ nodes := by
    have := List.mem_enum_iff_getElem?.mp hp
    exact List.mem_iff_getElem?.mpr ⟨p.1, this⟩
  refine ⟨p.2, hmem, ?_⟩
  split <;> exact ⟨rfl, rfl, rfl, rfl⟩

/-- With pairwise-distinct node ids, every dict is its id's last occurrence,
    so wiring appends `transFor` of its id to every node. -/
theorem mem_wireTransitions_of_nodup {nodes : List NodeD} {tasks : List TaskD}
    {fns : List FnReqD}
    (hnd : (nodes.map (fun n => n.node_id)).Nodup) :
    ∀ n' ∈ wireTransitions nodes tasks fns, ∃ n ∈ nodes,
      n' = { n with transitions := n.transitions ++ transFor (wireOps nodes tasks) n.node_id } := by
  intro n' hn'
  unfold wireTransitions at hn'
  obtain ⟨p, hp, rfl⟩ := List.mem_map.mp hn'
  obtain ⟨i, n⟩ := p
  have hget : nodes[i]? = some n := List.mem_enum_iff_getElem?.mp hp
  have hmem : n ∈ nodes := List.mem_iff_getElem?.mpr ⟨i, hget⟩
  refine ⟨n, hmem, ?_⟩
  have hcheck : ((nodes.drop (i + 1)).map (fun m => m.node_id)).contains n.node_id = false := by
    by_contra hne
    have hc : ((nodes.drop (i + 1)).map (fun m => m.node_id)).contains n.node_id = true := by
      revert hne
      cases ((nodes.drop (i + 1)).map (fun m => m.node_id)).contains n.node_id <;> simp
    have hmem2 : n.node_id ∈ (nodes.drop (i + 1)).map (fun m => m.node_id) :=
      List.elem_iff.mp hc
    obtain ⟨j, hj⟩ := List.mem_iff_getElem?.mp hmem2
    have hj2 : (nodes.map (fun m => m.node_id))[i + 1 + j]? = some n.node_id := by
      have := hj
      rw [List.getElem?_map] at this ⊢
      rw [List.getElem?_drop] at this
      exact this
    have hi2 : (nodes.map (fun m => m.node_id))[i]? = some n.node_id := by
      rw [List.getElem?_map, hget]
      rfl
    have hlt : i < i + 1 + j := by omega
    have hjlt : i + 1 + j < (nodes.map (fun m => m.node_id)).length := by
      by_contra hge
      have : (nodes.map (fun m => m.node_id))[i + 1 + j]? = none :=
        List.getElem?_eq_none (by omega)
      rw [this] at hj2
      exact Option.noConfusion hj2
    exact (List.nodup_iff_getElem?_ne_getElem?.mp hnd i (i + 1 + j) hlt hjlt) (hi2.trans hj2.symm)
  simp only [hcheck]
  simp

theorem string_data_append (a b : String) : (a ++ b).data = a.data ++ b.data := rfl

theorem string_mk_data (s : String) : (⟨s.data⟩ : String) = s := rfl

/-- On a string free of the pattern, the replace scan is the identity,
    whatever the fuel. -/
theorem stripNDGo_of_not_infix :
    ∀ (fuel : Nat) (l : List Char), infixB ndPat l = false → stripNDGo fuel l = l := by
  intro fuel
  induction fuel with
  | zero => intro l _; rw [stripNDGo]
  | succ fuel ih =>
      intro l h
      cases l with
      | nil => rw [stripNDGo]
      | cons c t =>
          rw [infixB] at h
          rcases Bool.or_eq_false_iff.mp h with ⟨hpre, hinf⟩
          rw [stripNDGo, if_neg (by simp [hpre]), ih t hinf]

/-- On a string free of the pattern, `replace("node_decision_", "")` is the
    identity. -/
theorem stripND_of_not_infix (l : List Char) (h : infixB ndPat l = false) :
    stripND l = l := stripNDGo_of_not_infix l.length l h

/-- Stripping the pattern from `pattern ++ tid` yields `tid` when `tid` does
    not itself contain the pattern. -/
theorem stripND_append (tid : List Char) (h : infixB ndPat tid = false) :
    stripND (ndPat ++ tid) = tid := by
  have hpre : ndPat.isPrefixOf (ndPat ++ tid) = true :=
    List.isPrefixOf_iff_prefix.mpr (List.prefix_append _ _)
  have hcons : ndPat ++ tid = 'n' :: ("ode_decision_".data ++ tid) := rfl
  have hlen : (ndPat ++ tid).length = tid.length + 13 + 1 := by
    rw [List.length_append]
    have : ndPat.length = 14 := rfl
    rw [this]
    omega
  unfold stripND
  rw [hlen]
  conv_lhs => rw [hcons]
  rw [stripNDGo]
  rw [← hcons, if_pos hpre, List.drop_left]
  exact stripNDGo_of_not_infix _ tid h

theorem mem_nodeIds {nodes : List NodeD} {n : NodeD} (h : n ∈ nodes) :
    n.node_id ∈ nodeIds nodes :=
  List.mem_map_of_mem _ h

theorem greetOps_mem (groups : List (List String)) :
    ∃ tr, ("node_greet", tr) ∈ greetOps groups := by
  unfold greetOps
  match groups with
  | [] => exact ⟨_, List.mem_singleton.mpr rfl⟩
  | [] :: _ => exact ⟨_, List.mem_singleton.mpr rfl⟩
  | (t0 :: _) :: _ => exact ⟨_, List.mem_singleton.mpr rfl⟩

theorem wireOps_greet (nodes : List NodeD) (tasks : List TaskD) :
    ∃ tr, ("node_greet", tr) ∈ wireOps nodes tasks := by
  obtain ⟨tr, htr⟩ := greetOps_mem (taskGroups (nodeIds nodes) tasks)
  exact ⟨tr, List.mem_append_left _ (List.mem_append_left _ htr)⟩

theorem tailOps_confirm {ids : List String} (h : "node_confirm" ∈ ids) :
    ∃ tr, ("node_confirm", tr) ∈ tailOps ids := by
  unfold tailOps
  rw [if_pos (List.elem_iff.mpr h)]
  exact ⟨_, List.mem_append_left _ (List.mem_append_left _ (List.mem_cons_self _ _))⟩

theorem tailOps_fallback {ids : List String} (h : "node_fallback" ∈ ids) :
    ∃ tr, ("node_fallback", tr) ∈ tailOps ids := by
  unfold tailOps
  rw [if_pos (List.elem_iff.mpr h)]
  refine ⟨{ condition := "retry", target_node_id := "node_greet" }, ?_⟩
  refine List.mem_append_left _ (List.mem_append_right _ ?_)
  exact List.mem_singleton.mpr rfl

theorem tailOps_transfer {ids : List String} (h : "node_transfer" ∈ ids) :
    ∃ tr, ("node_transfer", tr) ∈ tailOps ids := by
  unfold tailOps
  rw [if_pos (List.elem_iff.mpr h)]
  refine ⟨{ condition := "transferred", target_node_id := "node_end" }, ?_⟩
  refine List.mem_append_right _ ?_
  exact List.mem_singleton.mpr rfl

theorem tailOps_subset_wireOps {nodes : List NodeD} {tasks : List TaskD}
    {op : String × TransD} (h : op ∈ tailOps (nodeIds nodes)) :
    op ∈ wireOps nodes tasks :=
  List.mem_append_right _ h

theorem chainOps_subset_wireOps {nodes : List NodeD} {tasks : List TaskD} {task : TaskD}
    (htask : task ∈ tasks) {op : String × TransD}
    (hop : op ∈ chainOps nodes (taskGroup (nodeIds nodes) task)) :
    op ∈ wireOps nodes tasks := by
  refine List.mem_append_left _ (List.mem_append_right _ ?_)
  refine List.mem_flatten.mpr ⟨chainOps nodes (taskGroup (nodeIds nodes) task), ?_, hop⟩
  refine List.mem_map.mpr ⟨taskGroup (nodeIds nodes) task, ?_, rfl⟩
  exact List.mem_map.mpr ⟨task, htask, rfl⟩

theorem chainOps_of_at {nodes : List NodeD} {group : List String} {i : Nat} {nid : String}
    (hg : group[i]? = some nid) {op : String × TransD}
    (hop : op ∈ chainOpsAt nodes group i nid) : op ∈ chainOps nodes group := by
  refine List.mem_flatten.mpr ⟨chainOpsAt nodes group i nid, ?_, hop⟩
  refine List.mem_map.mpr ⟨(i, nid), ?_, rfl⟩
  exact List.mem_enum_iff_getElem?.mpr hg

theorem chainOpsAt_collect {nodes : List NodeD} {g : List String} {i : Nat}
    {nid : String} {n : NodeD} (hlast : lastNode nodes nid = some n)
    (htype : n.type = "collect_info") :
    ∃ tr, (nid, tr) ∈ chainOpsAt nodes g i nid := by
  unfold chainOpsAt
  rw [hlast]
  simp only [htype]
  rw [if_pos (by decide)]
  exact ⟨_, List.mem_singleton.mpr rfl⟩

theorem chainOpsAt_api {nodes : List NodeD} {g : List String} {i : Nat}
    {nid : String} {n : NodeD} (hlast : lastNode nodes nid = some n)
    (htype : n.type = "api_call") :
    ∃ tr, (nid, tr) ∈ chainOpsAt nodes g i nid := by
  unfold chainOpsAt
  rw [hlast]
  simp only [htype]
  rw [if_neg (by decide), if_pos (by decide)]
  exact ⟨_, List.mem_singleton.mpr rfl⟩

theorem chainOpsAt_decision {nodes : List NodeD} {g : List String} {i : Nat}
    {nid : String} {n : NodeD} (hlast : lastNode nodes nid = some n)
    (htype : n.type = "decision")
    (hsucc : ("node_success_" ++ (⟨stripND nid.data⟩ : String)) ∈ nodeIds nodes)
    (hfail : ("node_failure_" ++ (⟨stripND nid.data⟩ : String)) ∈ nodeIds nodes) :
    (∃ tr, (nid, tr) ∈ chainOpsAt nodes g i nid) ∧
    (∃ tr, ("node_success_" ++ (⟨stripND nid.data⟩ : String), tr) ∈ chainOpsAt nodes g i nid) ∧
    (∃ tr, ("node_failure_" ++ (⟨stripND nid.data⟩ : String), tr) ∈ chainOpsAt nodes g i nid) := by
  unfold chainOpsAt
  rw [hlast]
  simp only [htype]
  rw [if_neg (by decide), if_neg (by decide), if_pos (by decide)]
  rw [if_pos (List.elem_iff.mpr hsucc), if_pos (List.elem_iff.mpr hfail)]
  refine ⟨⟨_, List.mem_append_left _ (List.mem_cons_self _ _)⟩,
          ⟨{ condition := "continue", target_node_id := "node_confirm" },
            List.mem_append_left _ ?_⟩,
          ⟨{ condition := "user_wants_transfer", target_node_id := "node_transfer" },
            List.mem_append_right _ ?_⟩⟩
  · exact List.mem_cons_of_mem _ (List.mem_singleton.mpr rfl)
  · exact List.mem_cons_of_mem _ (List.mem_cons_self _ _)

theorem lastNode_eq_of_nodup {nodes : List NodeD}
    (hnd : (nodes.map (fun n => n.node_id)).Nodup) {n : NodeD} (hmem : n ∈ nodes) :
    lastNode nodes n.node_id = some n := by
  unfold lastNode
  have hsome : (nodes.reverse.find? (fun m => m.node_id == n.node_id)).isSome := by
    rw [List.find?_isSome]
    exact ⟨n, List.mem_reverse.mpr hmem, by simp⟩
  obtain ⟨m, hm⟩ := Option.isSome_iff_exists.mp hsome
  have hmmem : m ∈ nodes := List.mem_reverse.mp (List.mem_of_find?_eq_some hm)
  have hmid : m.node_id = n.node_id := by
    have := List.find?_some hm
    exact beq_iff_eq.mp this
  have : m = n := List.inj_on_of_nodup_map hnd hmmem hmem hmid
  rw [hm, this]

theorem mem_taskGroup_collect {ids : List String} {task : TaskD} {slot : String}
    (hslot : slot ∈ task.data_to_collect)
    (hmem : ("node_collect_" ++ pyId slot) ∈ ids) :
    ("node_collect_" ++ pyId slot) ∈ taskGroup ids task := by
  unfold taskGroup
  refine List.mem_append_left _ (List.mem_filter.mpr ⟨?_, List.elem_iff.mpr hmem⟩)
  exact List.mem_map.mpr ⟨slot, hslot, rfl⟩

theorem mem_taskGroup_api {ids : List String} {task : TaskD}
    (hapi : task.requires_api = true)
    (hmem : ("node_api_" ++ pyId task.task_name) ∈ ids) :
    ("node_api_" ++ pyId task.task_name) ∈ taskGroup ids task := by
  unfold taskGroup
  refine List.mem_append_right _ ?_
  rw [hapi]
  simp only [if_true]
  rw [if_pos (List.elem_iff.mpr hmem)]
  exact List.mem_append_left _ (List.mem_singleton.mpr rfl)

theorem mem_taskGroup_decision {ids : List String} {task : TaskD}
    (hapi : task.requires_api = true)
    (hmem : ("node_decision_" ++ pyId task.task_name) ∈ ids) :
    ("node_decision_" ++ pyId task.task_name) ∈ taskGroup ids task := by
  unfold taskGroup
  refine List.mem_append_right _ ?_
  rw [hapi]
  simp only [if_true]
  refine List.mem_append_right _ ?_
  rw [if_pos (List.elem_iff.mpr hmem)]
  exact List.mem_singleton.mpr rfl

theorem buildFlow_nodes (analysis : AnalysisD) :
    (buildFlow analysis).nodes =
      wireTransitions (buildNodes analysis) analysis.tasks analysis.functions_needed := rfl

theorem mem_buildNodes_of_mem_taskNodes {analysis : AnalysisD} {task : TaskD} {n : NodeD}
    (htask : task ∈ analysis.tasks)
    (hn : n ∈ taskNodes analysis.agent_name_suggestion analysis.functions_needed task) :
    n ∈ buildNodes analysis := by
  refine List.mem_cons_of_mem _ (List.mem_append_left _ ?_)
  exact List.mem_flatten.mpr ⟨_, List.mem_map.mpr ⟨task, htask, rfl⟩, hn⟩

theorem apiPart_mem_taskNodes {agent : String} {fns : List FnReqD} {task : TaskD}
    (hapi : task.requires_api = true) {n : NodeD}
    (hn : n ∈ [apiNode (pyId task.task_name) (matchingFn fns task),
               decisionNode (pyId task.task_name),
               successNode (pyId task.task_name),
               failureNode (pyId task.task_name)]) :
    n ∈ taskNodes agent fns task := by
  unfold taskNodes
  rw [hapi]
  simp only [if_true]
  exact List.mem_append_right _ hn

/-- C3 (amended): in every flow generated by the rule-based flow
    synthesizer whose node ids are pairwise distinct (ruled out exactly
    when two tasks share a slot name or a task name repeats), and whose
    task identifiers avoid the literal `node_decision_` fragment (true of
    every rule-table task), every node whose type is not `end` carries at
    least one transition after wiring. -/
theorem nonend_nodes_have_transitions (analysis : AnalysisD)
    (hids : ((buildFlow analysis).nodes.map (fun n => n.node_id)).Nodup)
    (htech : ∀ t ∈ analysis.tasks, substrB "node_decision_" (pyId t.task_name) = false) :
    ∀ n ∈ (buildFlow analysis).nodes, n.type ≠ "end" → n.transitions ≠ [] := by
  intro n hn hne
  rw [buildFlow_nodes] at hn
  have hnd : ((buildNodes analysis).map (fun m => m.node_id)).Nodup := by
    have h := hids
    rw [buildFlow_nodes, wireTransitions_map_id] at h
    exact h
  obtain ⟨n0, hmem0, rfl⟩ := mem_wireTransitions_of_nodup hnd n hn
  show n0.transitions ++ transFor (wireOps (buildNodes analysis) analysis.tasks) n0.node_id ≠ []
  have key : ∃ tr, (n0.node_id, tr) ∈ wireOps (buildNodes analysis) analysis.tasks := by
    rcases List.mem_cons.mp hmem0 with hgr | hmem1
    · -- the greeting node
      rw [hgr]
      exact wireOps_greet _ _
    rcases List.mem_append.mp hmem1 with hmid | htail
    · -- a task node
      obtain ⟨l, hl, hn0l⟩ := List.mem_flatten.mp hmid
      obtain ⟨task, htask, rfl⟩ := List.mem_map.mp hl
      have hlast : lastNode (buildNodes analysis) n0.node_id = some n0 :=
        lastNode_eq_of_nodup hnd hmem0
      have hmemIds : n0.node_id ∈ nodeIds (buildNodes analysis) :=
        List.mem_map.mpr ⟨n0, hmem0, rfl⟩
      unfold taskNodes at hn0l
      rcases List.mem_append.mp hn0l with hcol | happi
      · -- a collect_info node
        obtain ⟨slot, hslot, hn0eq⟩ := List.mem_map.mp hcol
        have hid0 : n0.node_id = "node_collect_" ++ pyId slot := by rw [← hn0eq]; rfl
        have htype : n0.type = "collect_info" := by rw [← hn0eq]; rfl
        have hgrp : n0.node_id ∈ taskGroup (nodeIds (buildNodes analysis)) task := by
          rw [hid0]
          exact mem_taskGroup_collect hslot (hid0 ▸ hmemIds)
        obtain ⟨i, hi⟩ := List.mem_iff_getElem?.mp hgrp
        obtain ⟨tr, htr⟩ := chainOpsAt_collect (g := taskGroup (nodeIds (buildNodes analysis)) task)
          (i := i) hlast htype
        exact ⟨tr, chainOps_subset_wireOps htask (chainOps_of_at hi htr)⟩
      · -- one of the api_call / decision / success / failure quartet
        cases hapi : task.requires_api
        case false =>
          rw [hapi] at happi
          simp at happi
        rw [hapi] at happi
        simp only [if_true] at happi
        simp only [List.mem_cons, List.not_mem_nil, or_false] at happi
        -- shared facts
        have hstr : (⟨stripND (("node_decision_" ++ pyId task.task_name : String)).data⟩ : String) =
            pyId task.task_name := by
          have h1 : (("node_decision_" ++ pyId task.task_name : String)).data =
              ndPat ++ (pyId task.task_name).data := rfl
          rw [h1, stripND_append _ (htech task htask)]
        have hdecMem : decisionNode (pyId task.task_name) ∈ buildNodes analysis := by
          refine mem_buildNodes_of_mem_taskNodes htask (apiPart_mem_taskNodes hapi ?_)
          exact List.mem_cons_of_mem _ (List.mem_cons_self _ _)
        have hsucMem : successNode (pyId task.task_name) ∈ buildNodes analysis := by
          refine mem_buildNodes_of_mem_taskNodes htask (apiPart_mem_taskNodes hapi ?_)
          exact List.mem_cons_of_mem _ (List.mem_cons_of_mem _ (List.mem_cons_self _ _))
        have hfailMem : failureNode (pyId task.task_name) ∈ buildNodes analysis := by
          refine mem_buildNodes_of_mem_taskNodes htask (apiPart_mem_taskNodes hapi ?_)
          exact List.mem_cons_of_mem _ (List.mem_cons_of_mem _ (List.mem_cons_of_mem _
            (List.mem_singleton.mpr rfl)))
        have hsucIds : ("node_success_" ++ pyId task.task_name) ∈ nodeIds (buildNodes analysis) :=
          List.mem_map.mpr ⟨_, hsucMem, rfl⟩
        have hfailIds : ("node_failure_" ++ pyId task.task_name) ∈ nodeIds (buildNodes analysis) :=
          List.mem_map.mpr ⟨_, hfailMem, rfl⟩
        have hdecIds : ("node_decision_" ++ pyId task.task_name) ∈ nodeIds (buildNodes analysis) :=
          List.mem_map.mpr ⟨_, hdecMem, rfl⟩
        have hdecGrp : ("node_decision_" ++ pyId task.task_name) ∈
            taskGroup (nodeIds (buildNodes analysis)) task :=
          mem_taskGroup_decision hapi hdecIds
        obtain ⟨idec, hidec⟩ := List.mem_iff_getElem?.mp hdecGrp
        have hdecLast : lastNode (buildNodes analysis) ("node_decision_" ++ pyId task.task_name) =
            some (decisionNode (pyId task.task_name)) := lastNode_eq_of_nodup hnd hdecMem
        have hdecOps := chainOpsAt_decision (g := taskGroup (nodeIds (buildNodes analysis)) task)
          (i := idec) hdecLast rfl (by rw [hstr]; exact hsucIds) (by rw [hstr]; exact hfailIds)
        rcases happi with happi | happi | happi | happi
        · -- the api_call node
          have hid0 : n0.node_id = "node_api_" ++ pyId task.task_name := by rw [happi]; rfl
          have htype : n0.type = "api_call" := by rw [happi]; rfl
          have hgrp : n0.node_id ∈ taskGroup (nodeIds (buildNodes analysis)) task := by
            rw [hid0]
            exact mem_taskGroup_api hapi (hid0 ▸ hmemIds)
          obtain ⟨i, hi⟩ := List.mem_iff_getElem?.mp hgrp
          obtain ⟨tr, htr⟩ := chainOpsAt_api (g := taskGroup (nodeIds (buildNodes analysis)) task)
            (i := i) hlast htype
          exact ⟨tr, chainOps_subset_wireOps htask (chainOps_of_at hi htr)⟩
        · -- the decision node
          obtain ⟨tr, htr⟩ := hdecOps.1
          rw [happi]
          exact ⟨tr, chainOps_subset_wireOps htask (chainOps_of_at hidec htr)⟩
        · -- the success response node
          obtain ⟨tr, htr⟩ := hdecOps.2.1
          rw [hstr] at htr
          rw [happi]
          exact ⟨tr, chainOps_subset_wireOps htask (chainOps_of_at hidec htr)⟩
        · -- the failure response node
          obtain ⟨tr, htr⟩ := hdecOps.2.2
          rw [hstr] at htr
          rw [happi]
          exact ⟨tr, chainOps_subset_wireOps htask (chainOps_of_at hidec htr)⟩
    · -- the fixed tail nodes
      have hcMem : confirmNode ∈ buildNodes analysis :=
        List.mem_cons_of_mem _ (List.mem_append_right _ (List.mem_cons_self _ _))
      have hfMem : fallbackNode ∈ buildNodes analysis :=
        List.mem_cons_of_mem _ (List.mem_append_right _
          (List.mem_cons_of_mem _ (List.mem_cons_self _ _)))
      have htMem : transferNode ∈ buildNodes analysis :=
        List.mem_cons_of_mem _ (List.mem_append_right _
          (List.mem_cons_of_mem _ (List.mem_cons_of_mem _ (List.mem_cons_self _ _))))
      simp only [List.mem_cons, List.not_mem_nil, or_false] at htail
      rcases htail with h | h | h | h
      · rw [h]
        obtain ⟨tr, htr⟩ := tailOps_confirm (mem_nodeIds hcMem)
        exact ⟨tr, tailOps_subset_wireOps htr⟩
      · rw [h]
        obtain ⟨tr, htr⟩ := tailOps_fallback (mem_nodeIds hfMem)
        exact ⟨tr, tailOps_subset_wireOps htr⟩
      · rw [h]
        obtain ⟨tr, htr⟩ := tailOps_transfer (mem_nodeIds htMem)
        exact ⟨tr, tailOps_subset_wireOps htr⟩
      · exact absurd (show n0.type = "end" by rw [h]; rfl) hne
  obtain ⟨tr, htr⟩ := key
  intro hcon
  exact transFor_ne_nil htr ((List.append_eq_nil.mp hcon).2)

/-! ### Properties of task detection and slot merging -/

theorem dedupGo_subset (l : List TaskD) :
    ∀ (seen : List String), ∀ t ∈ dedupGo seen l, t ∈ l := by
  induction l with
  | nil => intro seen t ht; exact absurd ht (List.not_mem_nil t)
  | cons t0 ts ih =>
      intro seen t ht
      rw [dedupGo] at ht
      by_cases hc : seen.contains t0.task_name = true
      · rw [if_pos hc] at ht
        exact List.mem_cons_of_mem _ (ih seen t ht)
      · rw [if_neg hc] at ht
        rcases List.mem_cons.mp ht with h | h
        · exact h ▸ List.mem_cons_self _ _
        · exact List.mem_cons_of_mem _ (ih _ t h)

theorem dedupGo_names_cover (l : List TaskD) :
    ∀ (seen : List String) (x : String), x ∈ l.map (fun t => t.task_name) →
      x ∈ seen ∨ x ∈ (dedupGo seen l).map (fun t => t.task_name) := by
  induction l with
  | nil => intro seen x hx; exact absurd hx (List.not_mem_nil x)
  | cons t0 ts ih =>
      intro seen x hx
      rw [List.map_cons] at hx
      rw [dedupGo]
      by_cases hc : seen.contains t0.task_name = true
      · rw [if_pos hc]
        rcases List.mem_cons.mp hx with h | h
        · exact Or.inl (h ▸ List.elem_iff.mp hc)
        · exact ih seen x h
      · rw [if_neg hc]
        rcases List.mem_cons.mp hx with h | h
        · exact Or.inr (by rw [List.map_cons, h]; exact List.mem_cons_self _ _)
        · rcases ih (t0.task_name :: seen) x h with hseen | hrec
          · rcases List.mem_cons.mp hseen with h2 | h2
            · exact Or.inr (by rw [List.map_cons, h2]; exact List.mem_cons_self _ _)
            · exact Or.inl h2
          · exact Or.inr (by rw [List.map_cons]; exact List.mem_cons_of_mem _ hrec)

/-- `_detect_tasks` with its intermediate names expanded. -/
theorem detectTasks_eq (text domain : String) :
    detectTasks text domain =
      dedupByName
        (if (greetTask ::
              (taskPatterns.filter (fun p => p.1.any (fun kw => substrB kw text))).map
                (fun p => p.2)).length ≤ 1 then
          (greetTask ::
            (taskPatterns.filter (fun p => p.1.any (fun kw => substrB kw text))).map
              (fun p => p.2)) ++ domainDefaultTasks domain
        else
          greetTask ::
            (taskPatterns.filter (fun p => p.1.any (fun kw => substrB kw text))).map
              (fun p => p.2)) := rfl

theorem mem_names_detectTasks_email {text d : String}
    (h : substrB "email" text = true) :
    "Collect Email" ∈ (detectTasks text d).map (fun t => t.task_name) := by
  have hpat : (["email", "e-mail", "mail address"], collectEmailTask) ∈ taskPatterns := by
    unfold taskPatterns collectEmailTask
    exact List.mem_cons_of_mem _ (List.mem_cons_self _ _)
  have hcond : (["email", "e-mail", "mail address"] : List String).any
      (fun kw => substrB kw text) = true := by
    simp only [List.any_cons, h, Bool.true_or]
  have hfil : (["email", "e-mail", "mail address"], collectEmailTask) ∈
      taskPatterns.filter (fun p => p.1.any (fun kw => substrB kw text)) :=
    List.mem_filter.mpr ⟨hpat, hcond⟩
  have hmatched : collectEmailTask ∈
      (taskPatterns.filter (fun p => p.1.any (fun kw => substrB kw text))).map
        (fun p => p.2) :=
    List.mem_map.mpr ⟨_, hfil, rfl⟩
  rw [detectTasks_eq]
  rw [if_neg (by
    intro hle
    have h1 : (taskPatterns.filter (fun p => p.1.any (fun kw => substrB kw text))).map
        (fun (p : List String × TaskD) => p.2) ≠ [] := List.ne_nil_of_mem hmatched
    simp only [List.length_cons] at hle
    have h2 := List.length_pos.mpr h1
    omega)]
  unfold dedupByName
  have hbase : "Collect Email" ∈ (greetTask ::
      (taskPatterns.filter (fun p => p.1.any (fun kw => substrB kw text))).map
        (fun p => p.2)).map (fun t => t.task_name) := by
    rw [List.map_cons]
    exact List.mem_cons_of_mem _ (List.mem_map.mpr ⟨collectEmailTask, hmatched, rfl⟩)
  rcases dedupGo_names_cover _ [] "Collect Email" hbase with h0 | h0
  · exact absurd h0 (List.not_mem_nil _)
  · exact h0

theorem names_domainDefault_allowed (domain : String) :
    ∀ t ∈ domainDefaultTasks domain, t.task_name ∈ allowedTaskNames := by
  intro t ht
  unfold domainDefaultTasks at ht
  split at ht <;> [skip; split at ht] <;> [skip; skip; split at ht] <;>
    · rw [List.mem_singleton] at ht
      rw [ht]
      decide

theorem names_detectTasks_allowed {text domain : String} :
    ∀ t ∈ detectTasks text domain, t.task_name ∈ allowedTaskNames := by
  intro t ht
  rw [detectTasks_eq] at ht
  have hsub := dedupGo_subset _ [] t ht
  have hpats : ∀ p ∈ taskPatterns, (p : List String × TaskD).2.task_name ∈ allowedTaskNames := by
    decide
  split at hsub
  · rcases List.mem_append.mp hsub with h1 | h2
    · rcases List.mem_cons.mp h1 with h | h
      · rw [h]; decide
      · obtain ⟨p, hp, rfl⟩ := List.mem_map.mp h
        exact hpats p (List.mem_of_mem_filter hp)
    · exact names_domainDefault_allowed domain t h2
  · rcases List.mem_cons.mp hsub with h | h
    · rw [h]; decide
    · obtain ⟨p, hp, rfl⟩ := List.mem_map.mp h
      exact hpats p (List.mem_of_mem_filter hp)

theorem merge_preserves_names {tasks : List TaskD} {us : List String}
    (h : (tasks.findIdx? (fun t => t.requires_api)).isSome = true ∨
         (tasks.findIdx? (fun (t : TaskD) => t.task_name != "Greeting")).isSome = true) :
    (mergeUserSlotsIntoTasks tasks us).map (fun t => t.task_name) =
      tasks.map (fun t => t.task_name) := by
  have henum : ∀ (i : Nat),
      (tasks.enum.map (fun (p : Nat × TaskD) =>
        if p.1 = i then { p.2 with data_to_collect := addSlots p.2.data_to_collect us }
        else p.2)).map (fun t => t.task_name) = tasks.map (fun t => t.task_name) := by
    intro i
    rw [List.map_map]
    have : ((fun t => t.task_name) ∘ (fun (p : Nat × TaskD) =>
        if p.1 = i then { p.2 with data_to_collect := addSlots p.2.data_to_collect us }
        else p.2)) = fun (p : Nat × TaskD) => p.2.task_name := by
      funext p
      simp only [Function.comp]
      split <;> rfl
    rw [this]
    have h2 : (fun (p : Nat × TaskD) => p.2.task_name) =
        ((fun t => t.task_name) ∘ Prod.snd) := rfl
    rw [h2, ← List.map_map, List.enum_map_snd]
  unfold mergeUserSlotsIntoTasks
  cases h1 : tasks.findIdx? (fun t => t.requires_api) with
  | some i => exact henum i
  | none =>
      cases h2 : tasks.findIdx? (fun (t : TaskD) => t.task_name != "Greeting") with
      | some i => exact henum i
      | none =>
          exfalso
          rcases h with hs | hs
          · rw [h1] at hs
            simp at hs
          · rw [h2] at hs
            simp at hs

theorem createFunctionsRules_names (reqs : List FnReqD) :
    (createFunctionsRules reqs).map (fun d => d.name) = reqs.map (fun r => r.name) := by
  unfold createFunctionsRules
  rw [List.map_map]
  apply List.map_congr_left
  intro r _
  rfl

theorem matchingFn_mem {fns : List FnReqD} (task : TaskD) (h : fns ≠ []) :
    ∃ r ∈ fns, matchingFn fns task = some r.name := by
  unfold matchingFn
  cases hf : fns.find? (fun fn => substrB (pyId task.task_name) fn.name ||
      substrB fn.name task.api_description) with
  | some fn =>
      exact ⟨fn, List.mem_of_find?_eq_some hf, rfl⟩
  | none =>
      obtain ⟨h0, t0, rfl⟩ := List.exists_cons_of_ne_nil h
      exact ⟨h0, List.mem_cons_self _ _, rfl⟩

theorem detectFunctions_ne_nil {tasks : List TaskD} {text : String} {task : TaskD}
    (htask : task ∈ tasks) (hapi : task.requires_api = true) :
    detectFunctions tasks text ≠ [] := by
  unfold detectFunctions
  have hmem : task ∈ tasks.filter (fun t => t.requires_api) :=
    List.mem_filter.mpr ⟨htask, hapi⟩
  exact List.ne_nil_of_mem (List.mem_map_of_mem _ hmem)

/-! ### The `required` list of a tool schema (C9 machinery) -/

theorem toolFold_required (ps : List ParamD) :
    ∀ (acc : List (String × PropD) × List String),
      (ps.foldl toolFoldStep acc).2 =
        acc.2 ++ (ps.filter (fun p => p.required.getD true)).map (fun p => p.name) := by
  induction ps with
  | nil => intro acc; simp
  | cons p ps ih =>
      intro acc
      rw [List.foldl_cons, ih]
      by_cases hr : p.required.getD true = true
      · rw [List.filter_cons_of_pos (by simpa using hr), List.map_cons]
        show (if p.required.getD true then acc.2 ++ [p.name] else acc.2) ++ _ = _
        rw [if_pos hr, List.append_assoc]
        rfl
      · rw [List.filter_cons_of_neg (by simpa using hr)]
        show (if p.required.getD true then acc.2 ++ [p.name] else acc.2) ++ _ = _
        rw [if_neg hr]

/-! ### Environment independence of the merge (C7 machinery) -/

theorem eraseConfigIds_mergeConfig (analysis : AnalysisD) (acr : AgentConfigRawD)
    (fns : List FnDefD) (platform : String) (env : Env) :
    eraseConfigIds (mergeConfig analysis acr fns platform env) =
      eraseConfigIds (mergeConfig analysis acr fns platform trivEnv) := by
  unfold eraseConfigIds mergeConfig
  simp only
  congr 1
  · rw [List.map_map, List.map_map]
    apply List.map_congr_left
    intro p _
    rfl
  · rw [List.map_map, List.map_map]
    apply List.map_congr_left
    intro p _
    rfl

/-- Every `api_call` node of the assembled node list is the api node of
    some API-requiring task of the brief, and carries that task's
    `matching_fn` reference. -/
theorem buildNodes_api_call {analysis : AnalysisD} {n : NodeD}
    (hmem : n ∈ buildNodes analysis) (htype : n.type = "api_call") :
    ∃ task ∈ analysis.tasks, task.requires_api = true ∧
      n.function_call = matchingFn analysis.functions_needed task := by
  rcases List.mem_cons.mp hmem with h | hmem1
  · rw [h] at htype
    exact absurd (show ("greeting" : String) = "api_call" from htype) (by decide)
  rcases List.mem_append.mp hmem1 with hmid | htail
  · obtain ⟨l, hl, hn0l⟩ := List.mem_flatten.mp hmid
    obtain ⟨task, htask, rfl⟩ := List.mem_map.mp hl
    unfold taskNodes at hn0l
    rcases List.mem_append.mp hn0l with hcol | happi
    · obtain ⟨slot, _, hn0eq⟩ := List.mem_map.mp hcol
      rw [← hn0eq] at htype
      exact absurd (show ("collect_info" : String) = "api_call" from htype) (by decide)
    · cases hapi : task.requires_api
      case false =>
        rw [hapi] at happi
        simp at happi
      rw [hapi] at happi
      simp only [if_true] at happi
      simp only [List.mem_cons, List.not_mem_nil, or_false] at happi
      rcases happi with h | h | h | h
      · exact ⟨task, htask, hapi, by rw [h]; rfl⟩
      · rw [h] at htype
        exact absurd (show ("decision" : String) = "api_call" from htype) (by decide)
      · rw [h] at htype
        exact absurd (show ("response" : String) = "api_call" from htype) (by decide)
      · rw [h] at htype
        exact absurd (show ("response" : String) = "api_call" from htype) (by decide)
  · simp only [List.mem_cons, List.not_mem_nil, or_false] at htail
    rcases htail with h | h | h | h <;> (rw [h] at htype; exact absurd htype (by decide))

/-! ### Claim theorems -/

/-- C1: the claim says every `collect_info`/`api_call` node created for the
    brief's detected tasks is reachable from `node_greet`. The code never
    links any task group from the greeting (the greeting is wired to
    `task_groups[0]`, the always-present Greeting task's empty group, and
    falls through to `node_confirm`), so for the brief of
    `book an appointment` the flow contains the `collect_info` node
    `node_collect_customer_name` and that node is not reachable from the
    entry: the ids reachable from `node_greet` form the transition-closed
    set `[node_greet, node_confirm, node_end]`. -/
theorem C1_collect_node_unreachable :
    (∃ n ∈ bookApptFlow.nodes, n.node_id = "node_collect_customer_name" ∧
      n.type = "collect_info") ∧
    ¬ Reaches bookApptFlow "node_collect_customer_name" := by
  constructor
  · decide
  · intro h
    have hmem := reaches_mem_of_closed (R := ["node_greet", "node_confirm", "node_end"])
      (by decide) (closedUnder_spec (by decide)) _ h
    exact absurd hmem (by decide)

/-- C2: the claim says the greeting transitions to the first node
    contributed by a task, and to `node_confirm` only when no task
    contributes nodes. For the brief of `book an appointment`, the
    Appointment Booking task contributes `node_collect_customer_name`, yet
    the greeting node's only transition targets `node_confirm`: the wiring
    reads `task_groups[0]`, which is the always-present Greeting task's
    empty group. -/
theorem C2_greeting_skips_task_nodes :
    ((bookApptFlow.nodes.find? (fun n => n.node_id == "node_greet")).map
        (fun n => n.transitions)) =
      some [{ condition := "user_responds", target_node_id := "node_confirm" }] ∧
    "node_collect_customer_name" ∈ nodeIds bookApptFlow.nodes ∧
    (∃ t ∈ bookApptAnalysis.tasks, t.task_name = "Appointment Booking" ∧
      t.data_to_collect ≠ []) := by decide

/-- C3 counterexample: the claim includes briefs where two tasks share a
    slot name. For `book an appointment and ask for name`, both Collect
    Customer Name and Appointment Booking collect `customer_name`; the two
    equal node ids make `node_map` keep only the later dict, so the flow
    contains a `collect_info` node (a non-end node) with zero
    transitions, contradicting the claim. -/
theorem C3_counterexample_shared_slot :
    (sharedSlotFlow.nodes.any (fun n => n.type == "collect_info" && n.transitions.isEmpty)) = true ∧
    (sharedSlotAnalysis.tasks.filter
      (fun t => t.data_to_collect.contains "customer_name")).length = 2 := by decide

/-- C3 witness: the brief of `book an appointment` has pairwise-distinct
    node ids and rule-table task names, and every non-end node of its flow
    carries a transition. -/
theorem C3_witness :
    ((buildFlow bookApptAnalysis).nodes.map (fun n => n.node_id)).Nodup ∧
    (∀ t ∈ bookApptAnalysis.tasks, substrB "node_decision_" (pyId t.task_name) = false) ∧
    (∀ n ∈ (buildFlow bookApptAnalysis).nodes, n.type ≠ "end" → n.transitions ≠ []) :=
  ⟨by decide, by decide,
    nonend_nodes_have_transitions bookApptAnalysis (by decide) (by decide)⟩

/-- C4: every `api_call` node of a rule-pipeline flow carries a non-null
    function reference that names some FunctionDefinition of the same
    pipeline's catalogue (an api node is only emitted for an API-requiring
    task, which guarantees `functions_needed` is non-empty; the reference
    is either a matched or the first entry's name, and the catalogue
    preserves requirement names). -/
theorem C4_api_nodes_resolve_in_catalog (userPrompt language platform : String) :
    apiNodesResolve (buildFlow (analyzeWithRules userPrompt language platform))
      (createFunctionsRules (analyzeWithRules userPrompt language platform).functions_needed) =
      true := by
  unfold apiNodesResolve
  rw [List.all_eq_true]
  intro n hn
  rw [buildFlow_nodes] at hn
  obtain ⟨n0, hmem0, hid, htype, hslot, hfn⟩ := mem_wireTransitions n hn
  by_cases ht : (n.type == "api_call") = true
  · rw [if_pos ht]
    have htype0 : n0.type = "api_call" := by rw [← htype]; exact beq_iff_eq.mp ht
    obtain ⟨task, htask, hapi, hfneq⟩ := buildNodes_api_call hmem0 htype0
    have hfns : (analyzeWithRules userPrompt language platform).functions_needed =
        detectFunctions (analyzeWithRules userPrompt language platform).tasks
          (lowerStr userPrompt) := rfl
    have hne : (analyzeWithRules userPrompt language platform).functions_needed ≠ [] := by
      rw [hfns]
      exact detectFunctions_ne_nil htask hapi
    obtain ⟨r, hr, hmf⟩ := matchingFn_mem task hne
    rw [hfn, hfneq, hmf]
    rw [createFunctionsRules_names]
    exact List.elem_iff.mpr (List.mem_map_of_mem _ hr)
  · rw [if_neg ht]

/-- C5 counterexample: for the scenario prompt, the rule pipeline derives
    TWO FunctionDefinitions — `get_appointment_slots` for Appointment
    Booking and `check_availability` for the also-detected Confirm
    Availability task — not exactly one as the claim states. -/
theorem C5_counterexample_two_functions :
    (c5Catalog.map (fun f => f.name)) = ["get_appointment_slots", "check_availability"] ∧
    ¬ (c5Catalog.length = 1) := by decide

/-- C5 (amended): the scenario holds with two FunctionDefinitions, the
    first being `get_appointment_slots` with HTTP method GET: domain
    healthcare, the Appointment Booking task's merged slot list, the
    extracted user slots, the four claimed flow nodes, and
    `node_confirm → node_end`. -/
theorem C5_scenario_amended :
    c5Analysis.domain = "healthcare" ∧
    (∃ t ∈ c5Analysis.tasks, t.task_name = "Appointment Booking" ∧
      t.data_to_collect = ["customer_name", "preferred_date", "preferred_time"]) ∧
    c5Analysis.user_requested_slots = ["customer_name", "preferred_date"] ∧
    (c5Catalog.map (fun f => f.name)) = ["get_appointment_slots", "check_availability"] ∧
    (c5Catalog.head?.map (fun f => f.name)) = some "get_appointment_slots" ∧
    (c5Catalog.head?.bind (fun f => f.api_endpoint.map (fun ep => ep.method))) = some "GET" ∧
    "node_greet" ∈ nodeIds c5Flow.nodes ∧
    "node_collect_customer_name" ∈ nodeIds c5Flow.nodes ∧
    "node_collect_preferred_date" ∈ nodeIds c5Flow.nodes ∧
    "node_api_appointment_booking" ∈ nodeIds c5Flow.nodes ∧
    (∃ n ∈ c5Flow.nodes, n.node_id = "node_confirm" ∧
      ({ condition := "nothing_else", target_node_id := "node_end" } : TransD) ∈ n.transitions) := by
  decide

/-- C6 counterexample: a lower-cased text containing the phrase
    `female voice` is classified `male`, not `female` as the claim states,
    because `male voice` is a substring of `female voice` and the male
    check runs first. -/
theorem C6_counterexample_female_voice :
    substrB "female voice" "use a female voice" = true ∧
    detectVoiceGender "use a female voice" ≠ "female" ∧
    detectVoiceGender "use a female voice" = "male" := by decide

/-- C6 (amended): voice-gender detection returns `male` whenever the text
    contains `male voice` or `male agent` as a substring — in particular
    for every text containing `female voice` or `female agent`, since those
    phrases contain the male ones — and returns the default `female` only
    when neither male phrase occurs as a substring. -/
theorem C6_voice_gender (text : String) :
    ((substrB "male voice" text = true ∨ substrB "male agent" text = true) →
      detectVoiceGender text = "male") ∧
    ((substrB "female voice" text = true ∨ substrB "female agent" text = true) →
      detectVoiceGender text = "male") ∧
    (substrB "male voice" text = false → substrB "male agent" text = false →
      detectVoiceGender text = "female") := by
  refine ⟨?_, ?_, ?_⟩
  · intro h
    unfold detectVoiceGender
    rcases h with h | h
    · simp [h]
    · simp [h]
  · intro h
    have hm : substrB "male voice" text = true ∨ substrB "male agent" text = true := by
      rcases h with h | h
      · exact Or.inl (substrB_trans (by decide) h)
      · exact Or.inr (substrB_trans (by decide) h)
    unfold detectVoiceGender
    rcases hm with h' | h'
    · simp [h']
    · simp [h']
  · intro h1 h2
    unfold detectVoiceGender
    rw [h1, h2]
    simp

/-- C6 witness: a text containing `female agent` contains `male agent`, and
    the detector returns `male` on it. -/
theorem C6_voice_gender_witness :
    substrB "female agent" "please use a female agent" = true ∧
    detectVoiceGender "please use a female agent" = "male" :=
  ⟨by decide, (C6_voice_gender "please use a female agent").2.1 (Or.inr (by decide))⟩

/-- C7 counterexample: two invocations of the rule pipeline draw different
    `uuid4` identifiers (modelled by two environments), and the resulting
    responses differ — already in `agent_config.agent_id` — so the outputs
    are not structurally identical "including ids and timestamps". -/
theorem C7_counterexample_fresh_ids :
    processRequestRule c7Request envA ≠ processRequestRule c7Request envB := by
  intro h
  have h2 := congrArg (fun r => r.agent_config.map (fun c => c.agent_id)) h
  have h3 : (some "agent_323b0a1c555e" : Option String) = some "agent_94c4ff00d21e" := h2
  exact absurd (Option.some.inj h3) (by decide)

/-- C7 (amended): the rule pipeline is deterministic up to the freshly
    drawn identifiers and the creation timestamp: for one request and any
    two environment draws, the analysis briefs are equal, the tool-schema
    lists are equal, and the full responses are equal after erasing
    `agent_id`, `created_at`, `flow_id` and the per-intent / per-function
    ids. -/
theorem C7_rule_pipeline_deterministic_up_to_ids (req : RequestM) (e1 e2 : Env) :
    (processRequestRule req e1).raw_analysis = (processRequestRule req e2).raw_analysis ∧
    (processRequestRule req e1).openai_tools_schema =
      (processRequestRule req e2).openai_tools_schema ∧
    eraseResponseIds (processRequestRule req e1) =
      eraseResponseIds (processRequestRule req e2) := by
  refine ⟨rfl, rfl, ?_⟩
  unfold eraseResponseIds processRequestRule processRequestWith successResponse runRuleStages
  simp only [Option.map]
  congr 1
  · simp only [mergeConfig, List.length_map, List.enum_length]
  · rw [eraseConfigIds_mergeConfig _ _ _ _ e1, eraseConfigIds_mergeConfig _ _ _ _ e2]

/-- C8 counterexample: for the concrete text `Record my email and phone
    number please` (which mentions both `email` and `phone number`), task
    detection finds the Collect Email and Collect Phone Number tasks — not
    only the greeting — and the resulting analysis contains no synthesized
    `Collect Customer Information` task: the claim's scenario does not
    occur. -/
theorem C8_counterexample_no_synthesized_task :
    substrB "email" (lowerStr c8Text) = true ∧
    substrB "phone number" (lowerStr c8Text) = true ∧
    ((analyzeWithRules c8Text "en-US" "voiceowl").tasks.map (fun t => t.task_name)) =
      ["Greeting", "Collect Email", "Collect Phone Number"] ∧
    "Collect Customer Information" ∉
      ((analyzeWithRules c8Text "en-US" "voiceowl").tasks.map (fun t => t.task_name)) := by
  decide

/-- C8 (amended): for every input mentioning `email` and `phone number`,
    task detection always finds the Collect Email task, so the rule
    analysis never contains a `Collect Customer Information` task; the synthesized-task branch is dead there. The
    synthesized task — with exactly the user slots and `requires_api`
    true — arises only when the merge step itself is handed a task list
    with no API-requiring and no non-greeting entry. -/
theorem C8_email_phone_slots (userPrompt language platform : String)
    (hE : substrB "email" (lowerStr userPrompt) = true)
    (_hP : substrB "phone number" (lowerStr userPrompt) = true) :
    ("Collect Email" ∈ (analyzeWithRules userPrompt language platform).tasks.map
      (fun t => t.task_name)) ∧
    ("Collect Customer Information" ∉ (analyzeWithRules userPrompt language platform).tasks.map
      (fun t => t.task_name)) ∧
    mergeUserSlotsIntoTasks [greetTask] ["email", "phone_number"] =
      [greetTask, cciTask ["email", "phone_number"]] ∧
    (cciTask ["email", "phone_number"]).requires_api = true ∧
    (cciTask ["email", "phone_number"]).data_to_collect = ["email", "phone_number"] := by
  have htasks : (analyzeWithRules userPrompt language platform).tasks =
      (if (extractUserSlots (lowerStr userPrompt)).isEmpty = true
       then detectTasks (lowerStr userPrompt) (detectDomain (lowerStr userPrompt))
       else mergeUserSlotsIntoTasks
              (detectTasks (lowerStr userPrompt) (detectDomain (lowerStr userPrompt)))
              (extractUserSlots (lowerStr userPrompt))) := rfl
  have hCE := mem_names_detectTasks_email
    (d := detectDomain (lowerStr userPrompt)) hE
  have hNoCCI : "Collect Customer Information" ∉
      (detectTasks (lowerStr userPrompt) (detectDomain (lowerStr userPrompt))).map
        (fun t => t.task_name) := by
    intro hmem
    obtain ⟨t, ht, hname⟩ := List.mem_map.mp hmem
    have hall := names_detectTasks_allowed t ht
    rw [hname] at hall
    exact absurd hall (by decide)
  have hidx : ((detectTasks (lowerStr userPrompt) (detectDomain (lowerStr userPrompt))).findIdx?
      (fun (t : TaskD) => t.task_name != "Greeting")).isSome = true := by
    rw [List.findIdx?_isSome, List.any_eq_true]
    obtain ⟨t, ht, hname⟩ := List.mem_map.mp hCE
    exact ⟨t, ht, by rw [hname]; decide⟩
  refine ⟨?_, ?_, by decide, by decide, by decide⟩
  · rw [htasks]
    split
    · exact hCE
    · rw [merge_preserves_names (Or.inr hidx)]
      exact hCE
  · rw [htasks]
    split
    · exact hNoCCI
    · rw [merge_preserves_names (Or.inr hidx)]
      exact hNoCCI

/-- C8 witness: the amended statement at the concrete text `Record my
    email and phone number please`. -/
theorem C8_witness :
    ("Collect Email" ∈ (analyzeWithRules c8Text "en-US" "voiceowl").tasks.map
      (fun t => t.task_name)) ∧
    ("Collect Customer Information" ∉ (analyzeWithRules c8Text "en-US" "voiceowl").tasks.map
      (fun t => t.task_name)) ∧
    mergeUserSlotsIntoTasks [greetTask] ["email", "phone_number"] =
      [greetTask, cciTask ["email", "phone_number"]] ∧
    (cciTask ["email", "phone_number"]).requires_api = true ∧
    (cciTask ["email", "phone_number"]).data_to_collect = ["email", "phone_number"] :=
  C8_email_phone_slots c8Text "en-US" "voiceowl" (by decide) (by decide)

/-- C9: for every list of FunctionDefinition dicts, the `required` array of
    each generated OpenAI tool schema is exactly the names of the
    parameters whose `required` flag is true (a missing flag counting as
    required), in parameter order. -/
theorem C9_required_exactly_required_params (functions : List FnDefD) :
    (toOpenaiTools functions).map (fun t => t.function.required) =
      functions.map (fun fn =>
        (fn.parameters.filter (fun p => p.required.getD true)).map (fun p => p.name)) := by
  unfold toOpenaiTools
  rw [List.map_map]
  apply List.map_congr_left
  intro fn _
  show (fn.parameters.foldl toolFoldStep ([], [])).2 = _
  rw [toolFold_required]
  rfl

/-- C10: when the pipeline stages inside `process_request` end in an
    exception, the returned response has `success = false`, a message
    containing the error text, and `agent_config = None`; the function
    returns normally (it is total in the embedding, mirroring the
    enclosing `try`/`except`). -/
theorem C10_failure_structured_response (outcome : Except String PipelineOutM) (e : String)
    (h : outcome = Except.error e) :
    (processRequestWith outcome).success = false ∧
    substrB e (processRequestWith outcome).message = true ∧
    (processRequestWith outcome).agent_config = none := by
  subst h
  refine ⟨rfl, ?_, rfl⟩
  rw [substrB_iff]
  show e.data <:+: ("Failed to create agent: " ++ e).data
  have hd : ("Failed to create agent: " ++ e).data =
      "Failed to create agent: ".data ++ e.data := rfl
  rw [hd]
  exact (List.suffix_append _ _).isInfix

/-- C10 witness: the failure response at the concrete error text
    `stage exploded`. -/
theorem C10_failure_witness :
    (processRequestWith (Except.error "stage exploded")).success = false ∧
    substrB "stage exploded" (processRequestWith (Except.error "stage exploded")).message = true ∧
    (processRequestWith (Except.error "stage exploded")).agent_config = none :=
  C10_failure_structured_response (Except.error "stage exploded") "stage exploded" rfl

end MetaAgent
